import Mathlib

/-!
Build configuration resolution of go-build: a shallow embedding of
`build_configuration_parser.go`, `detect.go` and `module_bom.go`.

* Go strings are Lean `String`s, slices are `List`s, and a Go `error` value is a `GoError`.
* The process environment, the file system and the shell tokenizer are read-only inputs of
  the functions; they are collected in `World`.
* The two collaborators of `BuildConfigurationParser` are interfaces in the source; here they
  are records of functions, and every call made to them is written to a call log.
* A Go function returning `(T, error)` returns a pair here as well, so that the value returned
  next to a non-nil error is part of the model.
* A slice handed to a function is a list; where the source writes through it, a second
  function tells what the holder of the slice finds afterwards (`callerFlagsAfter`).
-/

set_option autoImplicit false

namespace GoBuild

/-! ## Go runtime and library -/

/-- A Go `error` value, identified by its message. -/
abbrev GoError := String

/-- The three outcomes of `os.Stat` that the source tells apart: the call succeeds, it fails
with an error for which `errors.Is(err, os.ErrNotExist)` holds, or it fails otherwise. -/
inductive StatResult where
  | found
  | notExist
  | failed (err : GoError)
  deriving DecidableEq, Repr

/-- Go `strings.HasPrefix(s, prefix)`. -/
def HasPrefix (s pre : String) : Bool :=
  pre.data.isPrefixOf s.data

/-- Go `strconv.ParseBool`: the accepted texts are exactly the twelve listed in the standard
library; everything else is a syntax error, whose text is
`strconv.ParseBool: parsing ` + `strconv.Quote(str)` + `: invalid syntax`. What
`strconv.Quote` writes depends on the Unicode tables of the Go release, so the quoting
function is an argument. -/
def ParseBool (quote : String → String) (str : String) : Bool × Option GoError :=
  if str = "1" ∨ str = "t" ∨ str = "T" ∨ str = "TRUE" ∨ str = "true" ∨ str = "True" then
    (true, none)
  else if str = "0" ∨ str = "f" ∨ str = "F" ∨ str = "FALSE" ∨ str = "false" ∨ str = "False" then
    (false, none)
  else
    (false, some ("strconv.ParseBool: parsing " ++ quote str ++ ": invalid syntax"))

/-- Go `filepath.ListSeparator` on Unix. -/
def ListSeparator : Char := ':'

/-- Go `strings.Split` for a one-character separator, on the characters of the string:
`cur` holds the characters of the piece being read, in reverse. -/
def splitChars (sep : Char) : List Char → List Char → List String
  | [], cur => [String.mk cur.reverse]
  | c :: cs, cur =>
    if c = sep then String.mk cur.reverse :: splitChars sep cs []
    else splitChars sep cs (c :: cur)

/-- Go `filepath.SplitList` on Unix: the empty string gives the empty list, every other
string is split at each `ListSeparator`. -/
def SplitList (path : String) : List String :=
  if path = "" then [] else splitChars ListSeparator path.data []

/-- The read-only surroundings of a call.

* `lookupEnv` is `os.LookupEnv`: `none` when the variable is not set.
* `stat` is the error result of `os.Stat` on a path.
* `filepathJoin` is `filepath.Join` on two elements.
* `shellwordsParse` is `(*shellwords.Parser).Parse` of `github.com/mattn/go-shellwords` for
  a parser with `ParseEnv = true`; its first argument is the `os.Getenv` the parser expands
  variables with. The tokenizer is a third-party library: the theorems hold for every
  function put here.
* `strconvQuote` is `strconv.Quote`. -/
structure World where
  lookupEnv : String → Option String
  stat : String → StatResult
  filepathJoin : String → String → String
  shellwordsParse : (String → String) → String → List String × Option GoError
  strconvQuote : String → String

/-- Go `os.Getenv`: the value of the variable, the empty string when it is not set. -/
def World.getenv (w : World) (key : String) : String :=
  (w.lookupEnv key).getD ""

/-! ## `build_configuration_parser.go` -/

/-- The struct `BuildConfiguration`. -/
structure BuildConfiguration where
  Targets : List String
  Flags : List String
  ImportPath : String
  GenerateBOM : Bool
  deriving DecidableEq, Repr

/-- The zero value `BuildConfiguration{}`. -/
def BuildConfiguration.zero : BuildConfiguration :=
  { Targets := [], Flags := [], ImportPath := "", GenerateBOM := false }

/-- The interface `TargetManager`. -/
structure TargetManager where
  CleanAndValidate : List String → String → List String × Option GoError
  GenerateDefaults : String → List String × Option GoError

/-- The interface `BuildpackYMLParser`. -/
structure BuildpackYMLParser where
  Parse : String → String → BuildConfiguration × Option GoError

/-- The struct `BuildConfigurationParser`. -/
structure BuildConfigurationParser where
  targetManager : TargetManager
  buildpackYMLParser : BuildpackYMLParser

/-- `containsFlag`: some flag of the list has `match` as a prefix. -/
def containsFlag (flags : List String) (pat : String) : Bool :=
  flags.any (fun flag => HasPrefix flag pat)

/-- The body of the loop `for i, flag := range flags` of `parseFlagsFromEnvVars` (lines
158-162) at index `i`: `flags[i] = parsed[0]` when `flags[i]` begins with `-ldflags`. There is
no `break`. -/
def ldflagsLoopBody (parsed0 : String) (flags : List String) (i : Nat) : List String :=
  match flags[i]? with
  | some flag => if HasPrefix flag "-ldflags" then flags.set i parsed0 else flags
  | none => flags

/-- The loop of lines 157-163: the indices `0 .. len(flags)-1` are visited in order. -/
def replaceLdflagsLoop (parsed0 : String) (flags : List String) : List String :=
  (List.range flags.length).foldl (ldflagsLoopBody parsed0) flags

/-- The string `fmt.Sprintf("-ldflags=\"%s\"", ldFlags)`. -/
def wrapLdflags (ldFlags : String) : String :=
  "-ldflags=\"" ++ ldFlags ++ "\""

/-- The error of line 154. -/
def multipleWordsError (ldFlags : String) : GoError :=
  "BP_GO_BUILD_LDFLAGS value (" ++ ldFlags ++
    ") could not be parsed: value contains multiple words"

/-- Lines 140-146 of `parseFlagsFromEnvVars`: when `BP_GO_BUILD_FLAGS` is set, `flags` is
overwritten with the tokens of its value. -/
def applyBuildFlags (w : World) (flags : List String) : List String × Option GoError :=
  match w.lookupEnv "BP_GO_BUILD_FLAGS" with
  | some buildFlags =>
    match w.shellwordsParse w.getenv buildFlags with
    | (_, some err) => ([], some err)
    | (parsed, none) => (parsed, none)
  | none => (flags, none)

/-- Lines 148-169 of `parseFlagsFromEnvVars`, on the flag list that lines 140-146 left. -/
def applyLdflags (w : World) (flags : List String) : List String × Option GoError :=
  match w.lookupEnv "BP_GO_BUILD_LDFLAGS" with
  | some ldFlags =>
    match w.shellwordsParse w.getenv (wrapLdflags ldFlags) with
    | (_, some err) => ([], some err)
    | (parsed, none) =>
      if parsed.length ≠ 1 then ([], some (multipleWordsError ldFlags))
      else
        let parsed0 := parsed.headD ""
        let flags := replaceLdflagsLoop parsed0 flags
        if !containsFlag flags "-ldflags" then (flags ++ [parsed0], none)
        else (flags, none)
  | none => (flags, none)

/-- The function `parseFlagsFromEnvVars`: the two values it returns. A `nil` slice is the
empty list. The write of line 161 goes through the slice that was passed in; what it leaves
in that slice is `callerFlagsAfter`. -/
def parseFlagsFromEnvVars (w : World) (flags : List String) : List String × Option GoError :=
  match applyBuildFlags w flags with
  | (_, some err) => ([], some err)
  | (flags, none) => applyLdflags w flags

/-- The elements of the slice passed to `parseFlagsFromEnvVars`, as the call leaves them.
When `BP_GO_BUILD_FLAGS` is set, line 142 gives `flags` a new slice and nothing is written
to the one passed in. Otherwise the loop of lines 157-163 writes `flags[i] = parsed[0]`
into it; the loop runs only when the wrapped `BP_GO_BUILD_LDFLAGS` value gave one token. The
`append` of line 166 writes past the length of the slice passed in, which its holder does
not see. -/
def callerFlagsAfter (w : World) (flags : List String) : List String :=
  match w.lookupEnv "BP_GO_BUILD_FLAGS" with
  | some _ => flags
  | none =>
    match w.lookupEnv "BP_GO_BUILD_LDFLAGS" with
    | some ldFlags =>
      match w.shellwordsParse w.getenv (wrapLdflags ldFlags) with
      | (_, some _) => flags
      | (parsed, none) =>
        if parsed.length ≠ 1 then flags
        else replaceLdflagsLoop (parsed.headD "") flags
    | none => flags

/-- A call made to one of the collaborators. -/
inductive Call where
  | buildpackYMLParse (buildpackVersion workingDir : String)
  | cleanAndValidate (targets : List String) (workingDir : String)
  | generateDefaults (workingDir : String)
  deriving DecidableEq, Repr

/-- The call goes to the `TargetManager`. -/
def Call.isTargetManager : Call → Bool
  | Call.buildpackYMLParse _ _ => false
  | Call.cleanAndValidate _ _ => true
  | Call.generateDefaults _ => true

/-- What a call of `BuildConfigurationParser.Parse` does: the collaborator calls it made, in
order, and the two values it returned. -/
structure ParseRun where
  calls : List Call
  config : BuildConfiguration
  err : Option GoError
  deriving DecidableEq, Repr

/-- Lines 45-57 of `Parse`: the probe for `buildpack.yml` and, when the file is there, the
call of the buildpack.yml parser. With no file the configuration is the zero value of
`var buildConfiguration BuildConfiguration`. -/
def loadBuildpackYML (w : World) (p : BuildConfigurationParser)
    (buildpackVersion workingDir : String) : List Call × BuildConfiguration × Option GoError :=
  match w.stat (w.filepathJoin workingDir "buildpack.yml") with
  | StatResult.failed err => ([], BuildConfiguration.zero, some err)
  | StatResult.notExist => ([], BuildConfiguration.zero, none)
  | StatResult.found =>
    match p.buildpackYMLParser.Parse buildpackVersion workingDir with
    | (_, some err) =>
      ([Call.buildpackYMLParse buildpackVersion workingDir], BuildConfiguration.zero, some err)
    | (buildConfiguration, none) =>
      ([Call.buildpackYMLParse buildpackVersion workingDir], buildConfiguration, none)

/-- Lines 59-61 of `Parse`: the target list after the `BP_GO_TARGETS` override. -/
def targetsAfterEnv (w : World) (buildConfiguration : BuildConfiguration) : List String :=
  match w.lookupEnv "BP_GO_TARGETS" with
  | some val => SplitList val
  | none => buildConfiguration.Targets

/-- Lines 63-73 of `Parse`: the call of the `TargetManager` on the target list. -/
def resolveTargets (p : BuildConfigurationParser) (targets : List String)
    (workingDir : String) : List Call × List String × Option GoError :=
  if targets.length > 0 then
    match p.targetManager.CleanAndValidate targets workingDir with
    | (_, some err) => ([Call.cleanAndValidate targets workingDir], [], some err)
    | (cleaned, none) => ([Call.cleanAndValidate targets workingDir], cleaned, none)
  else
    match p.targetManager.GenerateDefaults workingDir with
    | (_, some err) => ([Call.generateDefaults workingDir], [], some err)
    | (defaults, none) => ([Call.generateDefaults workingDir], defaults, none)

/-- Lines 86-92 of `Parse`: `skipBomGeneration`, with the error of `strconv.ParseBool`. -/
def skipBomGeneration (w : World) : Bool × Option GoError :=
  match w.lookupEnv "BP_DISABLE_MODULE_BOM" with
  | some value => ParseBool w.strconvQuote value
  | none => (false, none)

/-- The function `validateGoModFile`. -/
def validateGoModFile (w : World) (workingDir : String) : Bool × Option GoError :=
  match w.stat (w.filepathJoin workingDir "go.mod") with
  | StatResult.failed err => (false, some err)
  | StatResult.notExist => (false, none)
  | StatResult.found => (true, none)

/-- The method `BuildConfigurationParser.Parse`. Every `return BuildConfiguration{}, err` of
the source is a `ParseRun` with `BuildConfiguration.zero` and `some err`. -/
def Parse (w : World) (p : BuildConfigurationParser) (buildpackVersion workingDir : String) :
    ParseRun :=
  match loadBuildpackYML w p buildpackVersion workingDir with
  | (calls1, _, some err) => ⟨calls1, BuildConfiguration.zero, some err⟩
  | (calls1, buildConfiguration, none) =>
    match resolveTargets p (targetsAfterEnv w buildConfiguration) workingDir with
    | (calls2, _, some err) => ⟨calls1 ++ calls2, BuildConfiguration.zero, some err⟩
    | (calls2, targets, none) =>
      match parseFlagsFromEnvVars w buildConfiguration.Flags with
      | (_, some err) => ⟨calls1 ++ calls2, BuildConfiguration.zero, some err⟩
      | (flags, none) =>
        let importPath :=
          match w.lookupEnv "BP_GO_BUILD_IMPORT_PATH" with
          | some val => val
          | none => buildConfiguration.ImportPath
        match skipBomGeneration w with
        | (_, some err) => ⟨calls1 ++ calls2, BuildConfiguration.zero, some err⟩
        | (skip, none) =>
          match validateGoModFile w workingDir with
          | (_, some err) => ⟨calls1 ++ calls2, BuildConfiguration.zero, some err⟩
          | (validGoModFile, none) =>
            ⟨calls1 ++ calls2,
              { Targets := targets
                Flags := flags
                ImportPath := importPath
                GenerateBOM := !skip && validGoModFile },
              none⟩

/-! ## `detect.go` -/

/-- The interface `ConfigurationParser`. -/
structure ConfigurationParser where
  Parse : String → String → BuildConfiguration × Option GoError

/-- The struct `packit.BuildPlanRequirement`; the metadata map is a list of key-value pairs,
and the only values this file writes are booleans. -/
structure BuildPlanRequirement where
  Name : String
  Metadata : List (String × Bool)
  deriving DecidableEq, Repr

/-- The struct `packit.BuildPlan`, with the one field `Detect` fills. -/
structure BuildPlan where
  Requires : List BuildPlanRequirement
  deriving DecidableEq, Repr

/-- The struct `packit.DetectResult`. -/
structure DetectResult where
  Plan : BuildPlan
  deriving DecidableEq, Repr

/-- The zero value `packit.DetectResult{}`. -/
def DetectResult.zero : DetectResult :=
  { Plan := { Requires := [] } }

/-- The struct `packit.BuildpackInfo`, with the one field `Detect` reads. -/
structure BuildpackInfo where
  Version : String

/-- The struct `packit.DetectContext`, with the fields `Detect` reads. -/
structure DetectContext where
  WorkingDir : String
  BuildpackInfo : BuildpackInfo

/-- The error `packit.Fail.WithMessage("failed to parse build configuration: %w", err)`. -/
def failWithMessage (err : GoError) : GoError :=
  "failed to parse build configuration: " ++ err

/-- The function returned by `Detect(parser)`, applied to a context. -/
def Detect (parser : ConfigurationParser) (context : DetectContext) :
    DetectResult × Option GoError :=
  match parser.Parse context.BuildpackInfo.Version context.WorkingDir with
  | (_, some err) => (DetectResult.zero, some (failWithMessage err))
  | (buildConfiguration, none) =>
    let requirements : List BuildPlanRequirement :=
      [{ Name := "go", Metadata := [("build", true)] }]
    let requirements :=
      if buildConfiguration.GenerateBOM then
        requirements ++ [{ Name := "cyclonedx-gomod", Metadata := [("build", true)] }]
      else requirements
    ({ Plan := { Requires := requirements } }, none)

/-! ## Notions used to state the properties -/

/-- What one pass of the loop does to a single flag. -/
def ldflagsOr (parsed0 : String) (flag : String) : String :=
  if HasPrefix flag "-ldflags" then parsed0 else flag

/-- The flag list with its first flag beginning with `-ldflags` replaced by `t`, in the
words of the specification ("replaces, in place, the first existing flag token whose content
begins with the `-ldflags` prefix"). It is not part of the source. -/
def replaceFirstLdflags (t : String) : List String → List String
  | [] => []
  | flag :: rest =>
    if HasPrefix flag "-ldflags" then t :: rest else flag :: replaceFirstLdflags t rest

/-- The number of flags that begin with `-ldflags`. -/
def countLdflags (flags : List String) : Nat :=
  flags.countP (fun flag => HasPrefix flag "-ldflags")

/-- The twelve texts that `strconv.ParseBool` accepts. -/
def boolTexts : List String :=
  ["1", "t", "T", "TRUE", "true", "True", "0", "f", "F", "FALSE", "false", "False"]

/-- The calls of a run that went to the `TargetManager`, in order. -/
def ParseRun.targetManagerCalls (r : ParseRun) : List Call :=
  r.calls.filter Call.isTargetManager

/-- The surroundings after `os.Setenv(key, value)`. -/
def World.setenv (w : World) (key value : String) : World :=
  { w with lookupEnv := fun k => if k = key then some value else w.lookupEnv k }

/-- The surroundings after `os.Unsetenv(key)`. -/
def World.unsetenv (w : World) (key : String) : World :=
  { w with lookupEnv := fun k => if k = key then none else w.lookupEnv k }

/-- The six texts that `strconv.ParseBool` reads as true. -/
def trueTexts : List String :=
  ["1", "t", "T", "TRUE", "true", "True"]

/-- The six texts that `strconv.ParseBool` reads as false. -/
def falseTexts : List String :=
  ["0", "f", "F", "FALSE", "false", "False"]

/-- A `BuildConfigurationParser` whose buildpack.yml parser hands out, on every call, the
configuration it holds and the same error, as a test double does. The slices of that
configuration are the holder's: what `Parse` writes through them is there at the next
call. -/
def holdingParser (targetManager : TargetManager) (held : BuildConfiguration)
    (err : Option GoError) : BuildConfigurationParser :=
  { targetManager := targetManager
    buildpackYMLParser := { Parse := fun _ _ => (held, err) } }

/-- The configuration held by the buildpack.yml parser of `holdingParser`, as a call of
`Parse` leaves it. When the call gets to line 75 with the configuration of the buildpack.yml
parser, the elements of its flags are what `parseFlagsFromEnvVars` left in the slice;
`Parse` writes to nothing else that it was handed. -/
def heldAfterParse (w : World) (targetManager : TargetManager) (held : BuildConfiguration)
    (err : Option GoError) (workingDir : String) : BuildConfiguration :=
  match w.stat (w.filepathJoin workingDir "buildpack.yml") with
  | StatResult.found =>
    match err with
    | some _ => held
    | none =>
      match (resolveTargets (holdingParser targetManager held err)
          (targetsAfterEnv w held) workingDir).2.2 with
      | some _ => held
      | none => { held with Flags := callerFlagsAfter w held.Flags }
  | _ => held

/-- Two calls of `Parse`, one after the other, with the same collaborators, version and
working directory: the first in the surroundings `w1`, the second in `w2`. The buildpack.yml
parser holds `held` when the first call starts, and what the first call left when the
second starts. The value is the pair of the two runs. -/
def ParseTwice (w1 w2 : World) (targetManager : TargetManager) (held : BuildConfiguration)
    (err : Option GoError) (buildpackVersion workingDir : String) : ParseRun × ParseRun :=
  (Parse w1 (holdingParser targetManager held err) buildpackVersion workingDir,
    Parse w2
      (holdingParser targetManager (heldAfterParse w1 targetManager held err workingDir) err)
      buildpackVersion workingDir)

/-- The target manager of `sampleParser`. -/
def sampleTargetManager : TargetManager :=
  { CleanAndValidate := fun targets _ => (targets, none)
    GenerateDefaults := fun _ => (["."], none) }

/-! ## Concrete surroundings, used to evaluate the functions on examples -/

/-- The three values of `got` in the loop of the shell tokenizer. -/
inductive ArgKind where
  | argNo
  | argSingle
  | argQuoted
  deriving DecidableEq, Repr

/-- The blanks of the shell tokenizer. -/
def isSpace (r : Char) : Bool :=
  r = ' ' || r = '\t' || r = '\r' || r = '\n'

/-- A stand-in for the shell tokenizer with `ParseEnv = false`, used to evaluate the
functions on examples. It follows the loop of the tokenizer for blanks, double quotes and
plain characters; single quotes, backslashes, backquotes and the shell operators are not
treated. `buf` is the word being read, in reverse; an unclosed quote is an error. -/
def plainWords : List Char → List Char → ArgKind → Bool → List String →
    List String × Option GoError
  | [], buf, got, doubleQuoted, args =>
    if doubleQuoted then ([], some "invalid command line string")
    else (if got ≠ ArgKind.argNo then args ++ [String.mk buf.reverse] else args, none)
  | r :: rest, buf, got, doubleQuoted, args =>
    if isSpace r then
      if doubleQuoted then plainWords rest (r :: buf) got doubleQuoted args
      else if got ≠ ArgKind.argNo then
        plainWords rest [] ArgKind.argNo doubleQuoted (args ++ [String.mk buf.reverse])
      else plainWords rest buf got doubleQuoted args
    else if r = '"' then
      plainWords rest buf (if doubleQuoted then ArgKind.argQuoted else got) (!doubleQuoted) args
    else plainWords rest (r :: buf) ArgKind.argSingle doubleQuoted args

/-- A stand-in for the variable expansion of the shell tokenizer: `$NAME`, with `NAME` a run
of letters, digits and underscores, is replaced by the value of the variable; a `$` with no
name after it is kept. `name` holds the name being read, in reverse. -/
def expandEnv (getenv : String → String) : List Char → Option (List Char) → List Char
  | [], none => []
  | [], some name =>
    if name = [] then ['$'] else (getenv (String.mk name.reverse)).data
  | c :: cs, none =>
    if c = '$' then expandEnv getenv cs (some []) else c :: expandEnv getenv cs none
  | c :: cs, some name =>
    if c.isAlphanum || c = '_' then expandEnv getenv cs (some (c :: name))
    else
      (if name = [] then ['$'] else (getenv (String.mk name.reverse)).data) ++
        (if c = '$' then expandEnv getenv cs (some []) else c :: expandEnv getenv cs none)

/-- What the shell tokenizer with `ParseEnv = true` does with a finished word: variables are
expanded, and a word that did not end in a quoted stretch is tokenized again, without
expansion. -/
def flushWord (getenv : String → String) (buf : List Char) (got : ArgKind)
    (args : List String) : List String × Option GoError :=
  if got = ArgKind.argSingle then
    match plainWords (expandEnv getenv buf.reverse none) [] ArgKind.argNo false [] with
    | (_, some err) => ([], some err)
    | (strs, none) => (args ++ strs, none)
  else (args ++ [String.mk (expandEnv getenv buf.reverse none)], none)

/-- A stand-in for the shell tokenizer with `ParseEnv = true`: the loop of `plainWords`,
with every finished word handed to `flushWord`. -/
def envWords (getenv : String → String) : List Char → List Char → ArgKind → Bool →
    List String → List String × Option GoError
  | [], buf, got, doubleQuoted, args =>
    match (if got ≠ ArgKind.argNo then flushWord getenv buf got args else (args, none)) with
    | (_, some err) => ([], some err)
    | (args, none) =>
      if doubleQuoted then ([], some "invalid command line string") else (args, none)
  | r :: rest, buf, got, doubleQuoted, args =>
    if isSpace r then
      if doubleQuoted then envWords getenv rest (r :: buf) got doubleQuoted args
      else if got ≠ ArgKind.argNo then
        match flushWord getenv buf got args with
        | (_, some err) => ([], some err)
        | (args, none) => envWords getenv rest [] ArgKind.argNo doubleQuoted args
      else envWords getenv rest buf got doubleQuoted args
    else if r = '"' then
      envWords getenv rest buf (if doubleQuoted then ArgKind.argQuoted else got)
        (!doubleQuoted) args
    else envWords getenv rest (r :: buf) ArgKind.argSingle doubleQuoted args

/-- A stand-in for `strconv.Quote` on texts of printable ASCII characters: the text between
double quotes, with a backslash before each double quote and each backslash. -/
def sampleQuote (str : String) : String :=
  "\"" ++ String.mk (str.data.flatMap (fun c =>
    if c = '"' ∨ c = '\\' then ['\\', c] else [c])) ++ "\""

/-- The environment in which exactly the listed variables are set. -/
def envOf (vars : List (String × String)) (key : String) : Option String :=
  (vars.find? (fun kv => kv.1 = key)).map (fun kv => kv.2)

/-- The file system in which exactly the listed paths exist and no probe fails. -/
def statOf (files : List String) (path : String) : StatResult :=
  if path ∈ files then StatResult.found else StatResult.notExist

/-- The surroundings with the listed variables and files, and the stand-ins for the
tokenizer and for `strconv.Quote`. -/
def sampleWorld (vars : List (String × String)) (files : List String) : World :=
  { lookupEnv := envOf vars
    stat := statOf files
    filepathJoin := fun dir name => dir ++ "/" ++ name
    shellwordsParse := fun getenv line => envWords getenv line.data [] ArgKind.argNo false []
    strconvQuote := sampleQuote }

/-- A target manager that keeps the targets it is given and whose default is `["."]`, and a
buildpack.yml parser that returns the given configuration. -/
def sampleParser (fromYML : BuildConfiguration) : BuildConfigurationParser :=
  { targetManager :=
      { CleanAndValidate := fun targets _ => (targets, none)
        GenerateDefaults := fun _ => (["."], none) }
    buildpackYMLParser := { Parse := fun _ _ => (fromYML, none) } }

/-- A target manager whose two operations fail. -/
def failingParser (fromYML : BuildConfiguration) : BuildConfigurationParser :=
  { targetManager :=
      { CleanAndValidate := fun _ _ => ([], some "invalid target")
        GenerateDefaults := fun _ => ([], some "no targets found") }
    buildpackYMLParser := { Parse := fun _ _ => (fromYML, none) } }

/-- A target manager whose two operations succeed with no target at all. -/
def emptyTargetsParser (fromYML : BuildConfiguration) : BuildConfigurationParser :=
  { targetManager :=
      { CleanAndValidate := fun _ _ => ([], none)
        GenerateDefaults := fun _ => ([], none) }
    buildpackYMLParser := { Parse := fun _ _ => (fromYML, none) } }

/-- The surroundings of `sampleWorld` in which the probe of each path listed in `locked`
fails with "permission denied". -/
def lockedWorld (vars : List (String × String)) (files locked : List String) : World :=
  { sampleWorld vars files with
    stat := fun path =>
      if path ∈ locked then StatResult.failed "permission denied" else statOf files path }

/-! ## `module_bom.go` -/

/-- An element of `Component.Hashes`. -/
structure ComponentHash where
  Algorithm : String
  Content : String
  deriving DecidableEq, Repr

/-- The struct of the field `License` inside an element of `Component.Evidence.Licenses`. -/
structure LicenseName where
  ID : String
  deriving DecidableEq, Repr

/-- An element of `Component.Evidence.Licenses`. -/
structure EvidenceLicense where
  License : LicenseName
  deriving DecidableEq, Repr

/-- The struct of the field `Component.Evidence`. -/
structure ComponentEvidence where
  Licenses : List EvidenceLicense
  deriving DecidableEq, Repr

/-- The struct `Component`. -/
structure Component where
  Name : String
  PURL : String
  Version : String
  Hashes : List ComponentHash
  Evidence : ComponentEvidence
  deriving DecidableEq, Repr

/-- The struct `BOM`. -/
structure BOM where
  Components : List Component
  deriving DecidableEq, Repr

/-- A value of the interface `packit.ChecksumAlgorithm`, identified by its name. -/
abbrev ChecksumAlgorithm := String

/-- The struct `packit.BOMChecksum`; `Algorithm` is `none` for the nil interface of the zero
value. -/
structure BOMChecksum where
  Algorithm : Option ChecksumAlgorithm
  Hash : String
  deriving DecidableEq, Repr

/-- The zero value `packit.BOMChecksum{}`. -/
def BOMChecksum.zero : BOMChecksum :=
  { Algorithm := none, Hash := "" }

/-- The struct `packit.BOMMetadata`, with the fields `Generate` fills. -/
structure BOMMetadata where
  Version : String
  PURL : String
  Checksum : BOMChecksum
  Licenses : List String
  deriving DecidableEq, Repr

/-- The struct `packit.BOMEntry`. -/
structure BOMEntry where
  Name : String
  Metadata : BOMMetadata
  deriving DecidableEq, Repr

/-- The interface `Executable`: the error of `Execute` for the given `Args` and `Dir`. -/
structure Executable where
  Execute : List String → String → Option GoError

/-- What `Generate` reads besides its receiver, as it is once the executable has run.

* `filepathJoin` is `filepath.Join` on two elements.
* `osOpen` is the error of `os.Open` on a path.
* `decode` is the outcome of `json.NewDecoder(file).Decode(&bom)` for the file at a path.
* `GetBOMChecksumAlgorithm` is `packit.GetBOMChecksumAlgorithm`.
* `osRemove` is the error of `os.Remove` on a path. -/
structure BOMFiles where
  filepathJoin : String → String → String
  osOpen : String → Option GoError
  decode : String → BOM × Option GoError
  GetBOMChecksumAlgorithm : String → ChecksumAlgorithm × Option GoError
  osRemove : String → Option GoError

/-- The struct `ModuleBOM`; the logger only writes log lines and is left out. -/
structure ModuleBOM where
  executable : Executable

/-- Lines 106-109 of `Generate`: the licence IDs are appended one by one. -/
def licenseIDs (licenses : List EvidenceLicense) : List String :=
  licenses.foldl (fun acc license => acc ++ [license.License.ID]) []

/-- Lines 87-110 of `Generate`, the body of the loop for one component: the entry built
from it, or the error of `packit.GetBOMChecksumAlgorithm` on the algorithm of
`entry.Hashes[0]`. -/
def componentEntry (files : BOMFiles) (entry : Component) : BOMEntry × Option GoError :=
  let packitEntry : BOMEntry :=
    { Name := entry.Name
      Metadata :=
        { Version := entry.Version
          PURL := entry.PURL
          Checksum := BOMChecksum.zero
          Licenses := [] } }
  match entry.Hashes with
  | hash0 :: _ =>
    match files.GetBOMChecksumAlgorithm hash0.Algorithm with
    | (_, some err) => (packitEntry, some err)
    | (algorithm, none) =>
      ({ packitEntry with
          Metadata :=
            { packitEntry.Metadata with
              Checksum := { Algorithm := some algorithm, Hash := hash0.Content }
              Licenses := licenseIDs entry.Evidence.Licenses } }, none)
  | [] =>
    ({ packitEntry with
        Metadata :=
          { packitEntry.Metadata with Licenses := licenseIDs entry.Evidence.Licenses } }, none)

/-- Lines 85-112 of `Generate`: the loop over `bom.Components`, with the entries appended so
far; an error leaves the loop with `return nil, err`. -/
def entriesLoop (files : BOMFiles) : List Component → List BOMEntry →
    List BOMEntry × Option GoError
  | [], entries => (entries, none)
  | entry :: rest, entries =>
    match componentEntry files entry with
    | (_, some err) => ([], some err)
    | (packitEntry, none) => entriesLoop files rest (entries ++ [packitEntry])

/-- The method `ModuleBOM.Generate`. -/
def Generate (m : ModuleBOM) (files : BOMFiles) (workingDir target : String) :
    List BOMEntry × Option GoError :=
  let args := ["app", "-json", "-files", "-licenses", "-main", target, "-output", "bom.json"]
  match m.executable.Execute args workingDir with
  | some err => ([], some ("failed to run cyclonedx-gomod: " ++ err))
  | none =>
    match files.osOpen (files.filepathJoin workingDir "bom.json") with
    | some err => ([], some ("failed to open bom.json: " ++ err))
    | none =>
      match files.decode (files.filepathJoin workingDir "bom.json") with
      | (_, some err) => ([], some ("failed to decode bom.json: " ++ err))
      | (bom, none) =>
        match entriesLoop files bom.Components [] with
        | (_, some err) => ([], some err)
        | (entries, none) =>
          match files.osRemove (files.filepathJoin workingDir "bom.json") with
          | some err => ([], some ("failed to remove bom.json: " ++ err))
          | none => (entries, none)

/-- The entry that `Generate` makes of a component whose first hash, if there is one, has a
recognised algorithm. -/
def entryOf (files : BOMFiles) (c : Component) : BOMEntry :=
  { Name := c.Name
    Metadata :=
      { Version := c.Version
        PURL := c.PURL
        Checksum :=
          match c.Hashes with
          | hash0 :: _ =>
            { Algorithm := some (files.GetBOMChecksumAlgorithm hash0.Algorithm).1
              Hash := hash0.Content }
          | [] => BOMChecksum.zero
        Licenses := c.Evidence.Licenses.map (fun license => license.License.ID) } }

/-- The component has no hashes, or the algorithm of its first hash is recognised by
`packit.GetBOMChecksumAlgorithm`. -/
def firstHashRecognised (files : BOMFiles) (c : Component) : Bool :=
  match c.Hashes with
  | hash0 :: _ => (files.GetBOMChecksumAlgorithm hash0.Algorithm).2.isNone
  | [] => true

/-- A sample of `packit.GetBOMChecksumAlgorithm` that knows `SHA-256` and `SHA-1`. -/
def sampleAlgorithm (alg : String) : ChecksumAlgorithm × Option GoError :=
  if alg = "SHA-256" ∨ alg = "SHA-1" then (alg, none)
  else ("", some ("failed to get supported BOM checksum algorithm: " ++ alg ++ " is not valid"))

/-- Files for which opening, decoding to the given BOM and removing succeed. -/
def sampleFiles (bom : BOM) : BOMFiles :=
  { filepathJoin := fun dir name => dir ++ "/" ++ name
    osOpen := fun _ => none
    decode := fun _ => (bom, none)
    GetBOMChecksumAlgorithm := sampleAlgorithm
    osRemove := fun _ => none }

/-- Files as in `sampleFiles`, except that removing a file fails with "permission denied". -/
def unremovableFiles (bom : BOM) : BOMFiles :=
  { sampleFiles bom with osRemove := fun _ => some "permission denied" }

/-- An executable that runs without error. -/
def sampleModuleBOM : ModuleBOM :=
  { executable := { Execute := fun _ _ => none } }

/-- A BOM of two components: the first with two hashes and two licences, the second with
none. -/
def sampleBOM : BOM :=
  { Components :=
      [{ Name := "github.com/a/b", PURL := "pkg:golang/github.com/a/b@v1.0.0",
         Version := "v1.0.0",
         Hashes := [⟨"SHA-256", "abc"⟩, ⟨"MD5", "def"⟩],
         Evidence := ⟨[⟨⟨"MIT"⟩⟩, ⟨⟨"Apache-2.0"⟩⟩]⟩ },
       { Name := "github.com/c/d", PURL := "pkg:golang/github.com/c/d@v0.2.0",
         Version := "v0.2.0", Hashes := [], Evidence := ⟨[]⟩ }] }

/-- A BOM whose second component has a first hash with an algorithm that is not known. -/
def badBOM : BOM :=
  { Components :=
      [{ Name := "github.com/a/b", PURL := "", Version := "v1.0.0",
         Hashes := [⟨"SHA-1", "abc"⟩], Evidence := ⟨[]⟩ },
       { Name := "github.com/c/d", PURL := "", Version := "v0.2.0",
         Hashes := [⟨"CRC", "00"⟩, ⟨"SHA-256", "11"⟩], Evidence := ⟨[]⟩ }] }

/-! ## Facts about the flag functions -/

theorem ldflagsLoopBody_getElem? (parsed0 : String) (fl : List String) (k i : Nat) :
    (ldflagsLoopBody parsed0 fl k)[i]? =
      if i = k then (fl[k]?).map (ldflagsOr parsed0) else fl[i]? := by
  unfold ldflagsLoopBody
  cases hfk : fl[k]? with
  | none =>
    by_cases hik : i = k
    · subst hik; simp [hfk]
    · simp [hik]
  | some flag =>
    have hlt : k < fl.length := (List.getElem?_eq_some_iff.mp hfk).1
    by_cases hp : HasPrefix flag "-ldflags" = true
    · by_cases hik : i = k
      · subst hik; simp [hp, ldflagsOr, hlt]
      · have hki : ¬ k = i := fun h => hik h.symm
        simp [hp, hik, List.getElem?_set, hki]
    · by_cases hik : i = k
      · subst hik; simp [hp, ldflagsOr, hfk]
      · simp [hp, hik]

theorem replaceLdflagsLoop_upto (parsed0 : String) (flags : List String) (k : Nat) :
    ∀ i : Nat, ((List.range k).foldl (ldflagsLoopBody parsed0) flags)[i]? =
      if i < k then (flags[i]?).map (ldflagsOr parsed0) else flags[i]? := by
  induction k with
  | zero => intro i; simp
  | succ k ih =>
    intro i
    rw [List.range_succ, List.foldl_append]
    simp only [List.foldl_cons, List.foldl_nil]
    rw [ldflagsLoopBody_getElem?, ih k, ih i]
    by_cases hik : i = k
    · subst hik; simp
    · by_cases h1 : i < k
      · simp [hik, h1, Nat.lt_succ_of_lt h1]
      · have h2 : ¬ i < k + 1 := by omega
        simp [hik, h1, h2]

/-- The loop replaces every flag that begins with `-ldflags` and keeps the others. -/
theorem replaceLdflagsLoop_eq_map (parsed0 : String) (flags : List String) :
    replaceLdflagsLoop parsed0 flags = flags.map (ldflagsOr parsed0) := by
  apply List.ext_getElem?
  intro i
  unfold replaceLdflagsLoop
  rw [replaceLdflagsLoop_upto]
  by_cases h : i < flags.length
  · simp [h]
  · have : flags[i]? = none := List.getElem?_eq_none_iff.mpr (by omega)
    simp [h, this]

theorem hasPrefix_ldflagsOr (parsed0 flag : String) :
    HasPrefix (ldflagsOr parsed0 flag) "-ldflags" =
      (HasPrefix flag "-ldflags" && HasPrefix parsed0 "-ldflags") := by
  unfold ldflagsOr
  by_cases hp : HasPrefix flag "-ldflags" = true
  · simp [hp]
  · simp [hp]

theorem containsFlag_map_ldflagsOr (parsed0 : String) (flags : List String) :
    containsFlag (flags.map (ldflagsOr parsed0)) "-ldflags" =
      (containsFlag flags "-ldflags" && HasPrefix parsed0 "-ldflags") := by
  unfold containsFlag
  induction flags with
  | nil => simp
  | cons f fs ih =>
    simp only [List.map_cons, List.any_cons, ih, hasPrefix_ldflagsOr]
    cases HasPrefix f "-ldflags" <;> cases HasPrefix parsed0 "-ldflags" <;> simp

theorem map_ldflagsOr_of_not_contains (parsed0 : String) (flags : List String)
    (hc : containsFlag flags "-ldflags" = false) :
    flags.map (ldflagsOr parsed0) = flags := by
  unfold containsFlag at hc
  induction flags with
  | nil => rfl
  | cons f fs ih =>
    simp only [List.any_cons, Bool.or_eq_false_iff] at hc
    simp [ldflagsOr, hc.1, ih hc.2]

/-- The ldflags step when the wrapped value gives exactly one token. -/
theorem applyLdflags_single (w : World) (flags : List String) (ldFlags t : String)
    (hv : w.lookupEnv "BP_GO_BUILD_LDFLAGS" = some ldFlags)
    (ht : w.shellwordsParse w.getenv (wrapLdflags ldFlags) = ([t], none)) :
    applyLdflags w flags =
      (if containsFlag flags "-ldflags" && HasPrefix t "-ldflags"
        then flags.map (ldflagsOr t) else flags.map (ldflagsOr t) ++ [t], none) := by
  unfold applyLdflags
  simp only [hv, ht, replaceLdflagsLoop_eq_map, containsFlag_map_ldflagsOr]
  cases hc : (containsFlag flags "-ldflags" && HasPrefix t "-ldflags") <;> simp_all

theorem parseFlagsFromEnvVars_of_applyBuildFlags (w : World) (base flags : List String)
    (hb : applyBuildFlags w base = (flags, none)) :
    parseFlagsFromEnvVars w base = applyLdflags w flags := by
  unfold parseFlagsFromEnvVars
  rw [hb]


theorem countLdflags_map_ldflagsOr (parsed0 : String) (flags : List String) :
    countLdflags (flags.map (ldflagsOr parsed0)) =
      if HasPrefix parsed0 "-ldflags" then countLdflags flags else 0 := by
  unfold countLdflags
  induction flags with
  | nil => simp
  | cons f fs ih =>
    simp only [List.map_cons, List.countP_cons, ih, hasPrefix_ldflagsOr]
    cases HasPrefix f "-ldflags" <;> cases HasPrefix parsed0 "-ldflags" <;> simp

theorem countLdflags_of_not_contains (flags : List String)
    (hc : containsFlag flags "-ldflags" = false) : countLdflags flags = 0 := by
  unfold containsFlag at hc
  unfold countLdflags
  induction flags with
  | nil => rfl
  | cons f fs ih =>
    simp only [List.any_cons, Bool.or_eq_false_iff] at hc
    simp [List.countP_cons, hc.1, ih hc.2]

/-- The ldflags step never raises the number of `-ldflags` flags above one. -/
theorem applyLdflags_count (w : World) (flags out : List String)
    (h : applyLdflags w flags = (out, none)) (hcount : countLdflags flags ≤ 1) :
    countLdflags out ≤ 1 := by
  cases hv : w.lookupEnv "BP_GO_BUILD_LDFLAGS" with
  | none =>
    unfold applyLdflags at h
    simp only [hv, Prod.mk.injEq, and_true] at h
    rw [← h]; exact hcount
  | some ldFlags =>
    rcases ht : w.shellwordsParse w.getenv (wrapLdflags ldFlags) with ⟨parsed, e⟩
    cases e with
    | some err =>
      unfold applyLdflags at h
      simp [hv, ht] at h
    | none =>
      by_cases hlen : parsed.length = 1
      · obtain ⟨t, rfl⟩ := List.length_eq_one.mp hlen
        rw [applyLdflags_single w flags ldFlags t hv ht] at h
        simp only [Prod.mk.injEq, and_true] at h
        rw [← h]
        by_cases hp : HasPrefix t "-ldflags" = true
        · cases hc : containsFlag flags "-ldflags" with
          | true =>
            simp only [hc, hp, Bool.and_self, if_true, countLdflags_map_ldflagsOr]
            exact hcount
          | false =>
            have h0 := countLdflags_of_not_contains flags hc
            simp only [hc, Bool.false_and, Bool.false_eq_true, if_false,
              map_ldflagsOr_of_not_contains t flags hc]
            unfold countLdflags at h0 ⊢
            simp [List.countP_append, h0, hp]
        · have hp' : HasPrefix t "-ldflags" = false := by simpa using hp
          simp only [hp', Bool.and_false, Bool.false_eq_true, if_false]
          have hm := countLdflags_map_ldflagsOr t flags
          simp only [hp', Bool.false_eq_true, if_false] at hm
          unfold countLdflags at hm ⊢
          simp [List.countP_append, hm, hp']
      · unfold applyLdflags at h
        simp [hv, ht, hlen] at h

/-! ## Facts about `Parse` -/

/-- A successful `Parse` went through every stage without an error, and its configuration
is assembled from what the stages returned. -/
theorem Parse_ok_inv (w : World) (p : BuildConfigurationParser) (v d : String)
    (hok : (Parse w p v d).err = none) :
    ∃ (c1 : List Call) (base : BuildConfiguration) (c2 : List Call) (targets flags : List String)
      (skip gomod : Bool),
      loadBuildpackYML w p v d = (c1, base, none) ∧
      resolveTargets p (targetsAfterEnv w base) d = (c2, targets, none) ∧
      parseFlagsFromEnvVars w base.Flags = (flags, none) ∧
      skipBomGeneration w = (skip, none) ∧
      validateGoModFile w d = (gomod, none) ∧
      Parse w p v d =
        ⟨c1 ++ c2,
          { Targets := targets
            Flags := flags
            ImportPath :=
              match w.lookupEnv "BP_GO_BUILD_IMPORT_PATH" with
              | some val => val
              | none => base.ImportPath
            GenerateBOM := !skip && gomod },
          none⟩ := by
  rcases h1 : loadBuildpackYML w p v d with ⟨c1, base, e1⟩
  rcases h2 : resolveTargets p (targetsAfterEnv w base) d with ⟨c2, targets, e2⟩
  rcases h3 : parseFlagsFromEnvVars w base.Flags with ⟨flags, e3⟩
  rcases h4 : skipBomGeneration w with ⟨skip, e4⟩
  rcases h5 : validateGoModFile w d with ⟨gomod, e5⟩
  cases e1 with
  | some e => simp [Parse, h1] at hok
  | none =>
    cases e2 with
    | some e => simp [Parse, h1, h2] at hok
    | none =>
      cases e3 with
      | some e => simp [Parse, h1, h2, h3] at hok
      | none =>
        cases e4 with
        | some e => simp [Parse, h1, h2, h3, h4] at hok
        | none =>
          cases e5 with
          | some e => simp [Parse, h1, h2, h3, h4, h5] at hok
          | none =>
            refine ⟨c1, base, c2, targets, flags, skip, gomod, rfl, h2, h3, rfl, rfl, ?_⟩
            simp only [Parse, h1, h2, h3, h4, h5]

/-- A failing `Parse` returns the zero configuration. -/
theorem Parse_err_zero (w : World) (p : BuildConfigurationParser) (v d : String)
    (herr : (Parse w p v d).err ≠ none) :
    (Parse w p v d).config = BuildConfiguration.zero := by
  rcases h1 : loadBuildpackYML w p v d with ⟨c1, base, e1⟩
  rcases h2 : resolveTargets p (targetsAfterEnv w base) d with ⟨c2, targets, e2⟩
  rcases h3 : parseFlagsFromEnvVars w base.Flags with ⟨flags, e3⟩
  rcases h4 : skipBomGeneration w with ⟨skip, e4⟩
  rcases h5 : validateGoModFile w d with ⟨gomod, e5⟩
  cases e1 <;> cases e2 <;> cases e3 <;> cases e4 <;> cases e5 <;>
    simp [Parse, h1, h2, h3, h4, h5] at herr ⊢

/-- The error of `Parse` when the flag stage is reached and fails. -/
theorem Parse_flags_error (w : World) (p : BuildConfigurationParser) (v d : String)
    (c1 c2 : List Call) (base : BuildConfiguration) (targets : List String)
    (h1 : loadBuildpackYML w p v d = (c1, base, none))
    (h2 : resolveTargets p (targetsAfterEnv w base) d = (c2, targets, none))
    (h3 : (parseFlagsFromEnvVars w base.Flags).2 ≠ none) :
    (Parse w p v d).err = (parseFlagsFromEnvVars w base.Flags).2 := by
  rcases h : parseFlagsFromEnvVars w base.Flags with ⟨flags, e3⟩
  cases e3 with
  | none => simp [h] at h3
  | some e => simp [Parse, h1, h2, h]

/-- The calls of `Parse` once the buildpack.yml stage has passed: those of that stage,
then those of the target stage, whatever happens afterwards. -/
theorem Parse_calls (w : World) (p : BuildConfigurationParser) (v d : String)
    (c1 : List Call) (base : BuildConfiguration)
    (h1 : loadBuildpackYML w p v d = (c1, base, none)) :
    (Parse w p v d).calls = c1 ++ (resolveTargets p (targetsAfterEnv w base) d).1 := by
  rcases h2 : resolveTargets p (targetsAfterEnv w base) d with ⟨c2, targets, e2⟩
  rcases h3 : parseFlagsFromEnvVars w base.Flags with ⟨flags, e3⟩
  rcases h4 : skipBomGeneration w with ⟨skip, e4⟩
  rcases h5 : validateGoModFile w d with ⟨gomod, e5⟩
  cases e2 <;> cases e3 <;> cases e4 <;> cases e5 <;> simp [Parse, h1, h2, h3, h4, h5]

/-- The buildpack.yml stage makes no call to the `TargetManager`. -/
theorem loadBuildpackYML_no_targetManager (w : World) (p : BuildConfigurationParser)
    (v d : String) :
    (loadBuildpackYML w p v d).1.filter Call.isTargetManager = [] := by
  unfold loadBuildpackYML
  cases w.stat (w.filepathJoin d "buildpack.yml") with
  | found =>
    rcases hy : p.buildpackYMLParser.Parse v d with ⟨cfg, e⟩
    cases e <;> simp [Call.isTargetManager]
  | notExist => simp
  | failed err => simp

/-- The target stage on a non-empty list: one call of `CleanAndValidate`, whose two results
are passed on. -/
theorem resolveTargets_nonempty (p : BuildConfigurationParser) (targets : List String)
    (d : String) (hne : targets ≠ []) :
    (resolveTargets p targets d).1 = [Call.cleanAndValidate targets d] ∧
    (resolveTargets p targets d).2.2 = (p.targetManager.CleanAndValidate targets d).2 ∧
    ((p.targetManager.CleanAndValidate targets d).2 = none →
      (resolveTargets p targets d).2.1 = (p.targetManager.CleanAndValidate targets d).1) := by
  have hlen : targets.length > 0 := List.length_pos.mpr hne
  unfold resolveTargets
  rcases hc : p.targetManager.CleanAndValidate targets d with ⟨out, e⟩
  cases e <;> simp [hlen]

/-- The target stage on the empty list: one call of `GenerateDefaults`, whose two results
are passed on. -/
theorem resolveTargets_empty (p : BuildConfigurationParser) (d : String) :
    (resolveTargets p [] d).1 = [Call.generateDefaults d] ∧
    (resolveTargets p [] d).2.2 = (p.targetManager.GenerateDefaults d).2 ∧
    ((p.targetManager.GenerateDefaults d).2 = none →
      (resolveTargets p [] d).2.1 = (p.targetManager.GenerateDefaults d).1) := by
  unfold resolveTargets
  rcases hc : p.targetManager.GenerateDefaults d with ⟨out, e⟩
  cases e <;> simp

/-- The targets of a successful `Parse` and the error of a `Parse` whose target stage fails
are those of the target stage. -/
theorem Parse_targets (w : World) (p : BuildConfigurationParser) (v d : String)
    (c1 : List Call) (base : BuildConfiguration)
    (h1 : loadBuildpackYML w p v d = (c1, base, none)) :
    ((Parse w p v d).err = none →
      (Parse w p v d).config.Targets =
        (resolveTargets p (targetsAfterEnv w base) d).2.1 ∧
      (resolveTargets p (targetsAfterEnv w base) d).2.2 = none) ∧
    (∀ e : GoError, (resolveTargets p (targetsAfterEnv w base) d).2.2 = some e →
      (Parse w p v d).err = some e) := by
  rcases h2 : resolveTargets p (targetsAfterEnv w base) d with ⟨c2, targets, e2⟩
  rcases h3 : parseFlagsFromEnvVars w base.Flags with ⟨flags, e3⟩
  rcases h4 : skipBomGeneration w with ⟨skip, e4⟩
  rcases h5 : validateGoModFile w d with ⟨gomod, e5⟩
  cases e2 <;> cases e3 <;> cases e4 <;> cases e5 <;> simp [Parse, h1, h2, h3, h4, h5]

/-- The `TargetManager` calls of `Parse` once the buildpack.yml stage has passed. -/
theorem Parse_targetManagerCalls (w : World) (p : BuildConfigurationParser) (v d : String)
    (c1 : List Call) (base : BuildConfiguration)
    (h1 : loadBuildpackYML w p v d = (c1, base, none)) :
    (Parse w p v d).targetManagerCalls =
      if targetsAfterEnv w base ≠ [] then [Call.cleanAndValidate (targetsAfterEnv w base) d]
      else [Call.generateDefaults d] := by
  have hc1 : c1.filter Call.isTargetManager = [] := by
    have := loadBuildpackYML_no_targetManager w p v d
    rw [h1] at this
    exact this
  unfold ParseRun.targetManagerCalls
  rw [Parse_calls w p v d c1 base h1, List.filter_append, hc1, List.nil_append]
  by_cases hne : targetsAfterEnv w base ≠ []
  · rw [(resolveTargets_nonempty p _ d hne).1, if_pos hne]
    simp [Call.isTargetManager]
  · have hnil : targetsAfterEnv w base = [] := by simpa using hne
    rw [if_neg hne, hnil, (resolveTargets_empty p d).1]
    simp [Call.isTargetManager]

/-- The error of `Parse` once the flag stage has passed: that of the
`BP_DISABLE_MODULE_BOM` stage if there is one, else that of the `go.mod` probe. -/
theorem Parse_err_after_flags (w : World) (p : BuildConfigurationParser) (v d : String)
    (c1 c2 : List Call) (base : BuildConfiguration) (targets flags : List String)
    (h1 : loadBuildpackYML w p v d = (c1, base, none))
    (h2 : resolveTargets p (targetsAfterEnv w base) d = (c2, targets, none))
    (h3 : parseFlagsFromEnvVars w base.Flags = (flags, none)) :
    (Parse w p v d).err =
      match (skipBomGeneration w).2 with
      | some e => some e
      | none => (validateGoModFile w d).2 := by
  rcases h4 : skipBomGeneration w with ⟨skip, e4⟩
  rcases h5 : validateGoModFile w d with ⟨gomod, e5⟩
  cases e4 <;> cases e5 <;> simp [Parse, h1, h2, h3, h4, h5]

/-- The texts on which `ParseBool` gives no error are the twelve of `boolTexts`. -/
theorem ParseBool_err_none_iff (quote : String → String) (str : String) :
    (ParseBool quote str).2 = none ↔ str ∈ boolTexts := by
  unfold ParseBool boolTexts
  by_cases h1 : str = "1" ∨ str = "t" ∨ str = "T" ∨ str = "TRUE" ∨ str = "true" ∨ str = "True"
  · simp only [h1, if_true, true_iff]
    simp only [List.mem_cons, List.mem_singleton]
    tauto
  · by_cases h2 : str = "0" ∨ str = "f" ∨ str = "F" ∨ str = "FALSE" ∨ str = "false" ∨
        str = "False"
    · simp only [h1, h2, if_true, if_false, true_iff]
      simp only [List.mem_cons, List.mem_singleton]
      tauto
    · simp only [h1, h2, if_false]
      simp only [List.mem_cons, List.mem_singleton, List.mem_nil_iff]
      constructor
      · intro h; simp at h
      · intro h; exfalso; tauto

/-- The six texts of `trueTexts` are read as true. -/
theorem ParseBool_of_trueTexts (quote : String → String) (str : String)
    (h : str ∈ trueTexts) : ParseBool quote str = (true, none) := by
  unfold trueTexts at h
  simp only [List.mem_cons, List.mem_singleton, List.mem_nil_iff, or_false] at h
  unfold ParseBool
  rw [if_pos h]

/-- The six texts of `falseTexts` are read as false. -/
theorem ParseBool_of_falseTexts (quote : String → String) (str : String)
    (h : str ∈ falseTexts) : ParseBool quote str = (false, none) := by
  unfold falseTexts at h
  simp only [List.mem_cons, List.mem_singleton, List.mem_nil_iff, or_false] at h
  have hnot : ¬(str = "1" ∨ str = "t" ∨ str = "T" ∨ str = "TRUE" ∨ str = "true" ∨
      str = "True") := by
    rcases h with h | h | h | h | h | h <;> subst h <;> decide
  unfold ParseBool
  rw [if_neg hnot, if_pos h]

/-- Every other text is a syntax error, whose message quotes the text. -/
theorem ParseBool_of_not_boolTexts (quote : String → String) (str : String)
    (h : str ∉ boolTexts) :
    ParseBool quote str =
      (false, some ("strconv.ParseBool: parsing " ++ quote str ++ ": invalid syntax")) := by
  unfold boolTexts at h
  simp only [List.mem_cons, List.mem_singleton, List.mem_nil_iff, or_false, not_or] at h
  unfold ParseBool
  rw [if_neg (by tauto), if_neg (by tauto)]

/-- The flag of `GenerateBOM` in a successful `Parse`, from the two probes. -/
theorem Parse_generateBOM (w : World) (p : BuildConfigurationParser) (v d : String)
    (hok : (Parse w p v d).err = none) :
    (Parse w p v d).config.GenerateBOM =
      (decide (w.stat (w.filepathJoin d "go.mod") = StatResult.found) &&
        !(match w.lookupEnv "BP_DISABLE_MODULE_BOM" with
          | some value => (ParseBool w.strconvQuote value).1
          | none => false)) := by
  obtain ⟨c1, base, c2, targets, flags, skip, gomod, _, _, _, h4, h5, hP⟩ :=
    Parse_ok_inv w p v d hok
  rw [hP]
  have hskip : skip = (match w.lookupEnv "BP_DISABLE_MODULE_BOM" with
      | some value => (ParseBool w.strconvQuote value).1
      | none => false) := by
    unfold skipBomGeneration at h4
    cases hv : w.lookupEnv "BP_DISABLE_MODULE_BOM" with
    | none => simp only [hv, Prod.mk.injEq] at h4; simp [h4.1]
    | some value =>
      simp only [hv] at h4
      simp [h4]
  have hgomod : gomod = decide (w.stat (w.filepathJoin d "go.mod") = StatResult.found) := by
    unfold validateGoModFile at h5
    cases hs : w.stat (w.filepathJoin d "go.mod") with
    | found => simp only [hs, Prod.mk.injEq] at h5; simp [h5.1]
    | notExist => simp only [hs, Prod.mk.injEq] at h5; simp [h5.1]
    | failed err => simp [hs] at h5
  simp only [← hskip, ← hgomod]
  cases skip <;> cases gomod <;> rfl

/-- The flag stage gives the same in two surroundings with the same values of the two flag
variables in which the tokenizer returns the same on the two texts that are tokenized. -/
theorem parseFlagsFromEnvVars_congr (w1 w2 : World)
    (hflags : w1.lookupEnv "BP_GO_BUILD_FLAGS" = w2.lookupEnv "BP_GO_BUILD_FLAGS")
    (hld : w1.lookupEnv "BP_GO_BUILD_LDFLAGS" = w2.lookupEnv "BP_GO_BUILD_LDFLAGS")
    (hft : ∀ buildFlags : String, w1.lookupEnv "BP_GO_BUILD_FLAGS" = some buildFlags →
      w1.shellwordsParse w1.getenv buildFlags = w2.shellwordsParse w2.getenv buildFlags)
    (hlt : ∀ ldFlags : String, w1.lookupEnv "BP_GO_BUILD_LDFLAGS" = some ldFlags →
      w1.shellwordsParse w1.getenv (wrapLdflags ldFlags) =
        w2.shellwordsParse w2.getenv (wrapLdflags ldFlags))
    (l : List String) :
    parseFlagsFromEnvVars w1 l = parseFlagsFromEnvVars w2 l := by
  have hb : ∀ l : List String, applyBuildFlags w1 l = applyBuildFlags w2 l := by
    intro l
    unfold applyBuildFlags
    rw [← hflags]
    cases hv : w1.lookupEnv "BP_GO_BUILD_FLAGS" with
    | none => rfl
    | some buildFlags => simp only [hft buildFlags hv]
  have hl : ∀ l : List String, applyLdflags w1 l = applyLdflags w2 l := by
    intro l
    unfold applyLdflags
    rw [← hld]
    cases hv : w1.lookupEnv "BP_GO_BUILD_LDFLAGS" with
    | none => rfl
    | some ldFlags => simp only [hlt ldFlags hv]
  unfold parseFlagsFromEnvVars
  rw [hb l]
  simp only [hl]

/-- Two surroundings in which every stage of `Parse` gives the same give the same run. -/
theorem Parse_congr (w1 w2 : World) (p : BuildConfigurationParser) (v d : String)
    (hyml : loadBuildpackYML w1 p v d = loadBuildpackYML w2 p v d)
    (htgt : ∀ base : BuildConfiguration, targetsAfterEnv w1 base = targetsAfterEnv w2 base)
    (hpf : ∀ l : List String, parseFlagsFromEnvVars w1 l = parseFlagsFromEnvVars w2 l)
    (himport : w1.lookupEnv "BP_GO_BUILD_IMPORT_PATH" = w2.lookupEnv "BP_GO_BUILD_IMPORT_PATH")
    (hskip : skipBomGeneration w1 = skipBomGeneration w2)
    (hgm : validateGoModFile w1 d = validateGoModFile w2 d) :
    Parse w1 p v d = Parse w2 p v d := by
  unfold Parse
  rw [hyml, hskip, hgm, himport]
  simp only [htgt, hpf]

/-- Two surroundings in which every stage of `Parse` but the flag stage gives the same: the
calls are the same and, when both runs succeed, so are the targets, the import path and
`GenerateBOM`. -/
theorem Parse_congr_but_flags (w1 w2 : World) (p : BuildConfigurationParser) (v d : String)
    (hyml : loadBuildpackYML w1 p v d = loadBuildpackYML w2 p v d)
    (htgt : ∀ base : BuildConfiguration, targetsAfterEnv w1 base = targetsAfterEnv w2 base)
    (himport : w1.lookupEnv "BP_GO_BUILD_IMPORT_PATH" = w2.lookupEnv "BP_GO_BUILD_IMPORT_PATH")
    (hskip : skipBomGeneration w1 = skipBomGeneration w2)
    (hgm : validateGoModFile w1 d = validateGoModFile w2 d) :
    (Parse w1 p v d).calls = (Parse w2 p v d).calls ∧
    ((Parse w1 p v d).err = none → (Parse w2 p v d).err = none →
      (Parse w1 p v d).config.Targets = (Parse w2 p v d).config.Targets ∧
      (Parse w1 p v d).config.ImportPath = (Parse w2 p v d).config.ImportPath ∧
      (Parse w1 p v d).config.GenerateBOM = (Parse w2 p v d).config.GenerateBOM) := by
  constructor
  · rcases h1 : loadBuildpackYML w1 p v d with ⟨c1, base, e1⟩
    have h1' : loadBuildpackYML w2 p v d = (c1, base, e1) := by rw [← hyml, h1]
    cases e1 with
    | some e =>
      unfold Parse
      simp only [h1, h1']
    | none =>
      rw [Parse_calls w1 p v d c1 base h1, Parse_calls w2 p v d c1 base h1', htgt base]
  · intro hok1 hok2
    obtain ⟨c1, base, c2, targets, flags, skip, gomod, h1, h2, _, h4, h5, hP⟩ :=
      Parse_ok_inv w1 p v d hok1
    obtain ⟨c1', base', c2', targets', flags', skip', gomod', h1', h2', _, h4', h5', hP'⟩ :=
      Parse_ok_inv w2 p v d hok2
    rw [hyml, h1'] at h1
    simp only [Prod.mk.injEq, and_true] at h1
    obtain ⟨_, hbase⟩ := h1
    subst hbase
    rw [htgt base', h2'] at h2
    simp only [Prod.mk.injEq, and_true] at h2
    rw [hskip, h4'] at h4
    simp only [Prod.mk.injEq, and_true] at h4
    rw [hgm, h5'] at h5
    simp only [Prod.mk.injEq, and_true] at h5
    rw [hP, hP']
    simp only [himport, h2.2, h4, h5, and_self]

/-! ## The flag merge -/

/-- C1, as the specification words it, fails: with two flags beginning with `-ldflags` the
code replaces both, whereas replacing only the first would keep `-ldflags=b`. -/
theorem ldflags_first_only_counterexample :
    containsFlag ["-ldflags=a", "-ldflags=b"] "-ldflags" = true ∧
    (sampleWorld [("BP_GO_BUILD_LDFLAGS", "x")] []).shellwordsParse
        (sampleWorld [("BP_GO_BUILD_LDFLAGS", "x")] []).getenv (wrapLdflags "x") =
      (["-ldflags=x"], none) ∧
    parseFlagsFromEnvVars (sampleWorld [("BP_GO_BUILD_LDFLAGS", "x")] [])
        ["-ldflags=a", "-ldflags=b"] = (["-ldflags=x", "-ldflags=x"], none) ∧
    replaceFirstLdflags "-ldflags=x" ["-ldflags=a", "-ldflags=b"] =
      ["-ldflags=x", "-ldflags=b"] ∧
    parseFlagsFromEnvVars (sampleWorld [("BP_GO_BUILD_LDFLAGS", "x")] [])
        ["-ldflags=a", "-ldflags=b"] ≠
      (replaceFirstLdflags "-ldflags=x" ["-ldflags=a", "-ldflags=b"], none) := by
  decide

/-- C1 (amended): when the flag list left by the `BP_GO_BUILD_FLAGS` step contains a flag
beginning with `-ldflags` and the wrapped `BP_GO_BUILD_LDFLAGS` value gives the single token
`t` (which begins with `-ldflags`), `parseFlagsFromEnvVars` succeeds with that list in which
every flag beginning with `-ldflags` is replaced by `t` at its index and every other flag is
unchanged; the length is unchanged. -/
theorem ldflags_replaces_every_match (w : World) (base flags : List String)
    (ldFlags t : String)
    (hb : applyBuildFlags w base = (flags, none))
    (hv : w.lookupEnv "BP_GO_BUILD_LDFLAGS" = some ldFlags)
    (ht : w.shellwordsParse w.getenv (wrapLdflags ldFlags) = ([t], none))
    (hpre : HasPrefix t "-ldflags" = true)
    (hc : containsFlag flags "-ldflags" = true) :
    parseFlagsFromEnvVars w base =
      (flags.map (fun flag => if HasPrefix flag "-ldflags" then t else flag), none) ∧
    (parseFlagsFromEnvVars w base).1.length = flags.length := by
  have h : parseFlagsFromEnvVars w base = (flags.map (ldflagsOr t), none) := by
    rw [parseFlagsFromEnvVars_of_applyBuildFlags w base flags hb,
      applyLdflags_single w flags ldFlags t hv ht]
    simp [hc, hpre]
  refine ⟨h, ?_⟩
  rw [h]
  simp

/-- C1, on the example of the specification: the override replaces `-ldflags=old` where it
stands. -/
theorem ldflags_replaces_every_match_witness :
    parseFlagsFromEnvVars (sampleWorld [("BP_GO_BUILD_LDFLAGS", "-X main.version=1.0")] [])
        ["-ldflags=old", "-race"] =
      (["-ldflags=-X main.version=1.0", "-race"], none) ∧
    (parseFlagsFromEnvVars (sampleWorld [("BP_GO_BUILD_LDFLAGS", "-X main.version=1.0")] [])
        ["-ldflags=old", "-race"]).1.length = 2 :=
  ldflags_replaces_every_match
    (sampleWorld [("BP_GO_BUILD_LDFLAGS", "-X main.version=1.0")] [])
    ["-ldflags=old", "-race"] ["-ldflags=old", "-race"] "-X main.version=1.0"
    "-ldflags=-X main.version=1.0" (by decide) (by decide) (by decide) (by decide) (by decide)

/-- C3: when no flag of the list left by the `BP_GO_BUILD_FLAGS` step begins with `-ldflags`
and the wrapped `BP_GO_BUILD_LDFLAGS` value gives the single token `t`, the result of
`parseFlagsFromEnvVars` is that list followed by `t`. -/
theorem ldflags_appended_when_absent (w : World) (base flags : List String)
    (ldFlags t : String)
    (hb : applyBuildFlags w base = (flags, none))
    (hv : w.lookupEnv "BP_GO_BUILD_LDFLAGS" = some ldFlags)
    (ht : w.shellwordsParse w.getenv (wrapLdflags ldFlags) = ([t], none))
    (hc : containsFlag flags "-ldflags" = false) :
    parseFlagsFromEnvVars w base = (flags ++ [t], none) := by
  rw [parseFlagsFromEnvVars_of_applyBuildFlags w base flags hb,
    applyLdflags_single w flags ldFlags t hv ht, map_ldflagsOr_of_not_contains t flags hc]
  simp [hc]

/-- C3, on the example of the specification: with no earlier `-ldflags` flag the override is
put last. -/
theorem ldflags_appended_when_absent_witness :
    parseFlagsFromEnvVars (sampleWorld [("BP_GO_BUILD_LDFLAGS", "-X main.version=1.0")] [])
        ["-race"] = (["-race", "-ldflags=-X main.version=1.0"], none) :=
  ldflags_appended_when_absent
    (sampleWorld [("BP_GO_BUILD_LDFLAGS", "-X main.version=1.0")] [])
    ["-race"] ["-race"] "-X main.version=1.0" "-ldflags=-X main.version=1.0"
    (by decide) (by decide) (by decide) (by decide)

/-- C4: when `BP_GO_BUILD_FLAGS` is set and its value tokenizes, and `BP_GO_BUILD_LDFLAGS`
is not set, `parseFlagsFromEnvVars` returns the tokens of the value, whatever the base list
is. -/
theorem build_flags_replace_base (w : World) (base : List String) (buildFlags : String)
    (tokens : List String)
    (hv : w.lookupEnv "BP_GO_BUILD_FLAGS" = some buildFlags)
    (ht : w.shellwordsParse w.getenv buildFlags = (tokens, none))
    (hl : w.lookupEnv "BP_GO_BUILD_LDFLAGS" = none) :
    parseFlagsFromEnvVars w base = (tokens, none) ∧
    ∀ other : List String, parseFlagsFromEnvVars w other = parseFlagsFromEnvVars w base := by
  have h : ∀ l : List String, parseFlagsFromEnvVars w l = (tokens, none) := by
    intro l
    have hb : applyBuildFlags w l = (tokens, none) := by
      unfold applyBuildFlags
      simp only [hv, ht]
    rw [parseFlagsFromEnvVars_of_applyBuildFlags w l tokens hb]
    unfold applyLdflags
    simp only [hl]
  exact ⟨h base, fun other => by rw [h other, h base]⟩

/-- C4, on two examples: an empty value of `BP_GO_BUILD_FLAGS` empties the flag list, and a
value with two words replaces a base list of one flag. -/
theorem build_flags_replace_base_witness :
    (parseFlagsFromEnvVars (sampleWorld [("BP_GO_BUILD_FLAGS", "")] [])
        ["-ldflags=old", "-race"] = ([], none) ∧
      ∀ other : List String,
        parseFlagsFromEnvVars (sampleWorld [("BP_GO_BUILD_FLAGS", "")] []) other =
          parseFlagsFromEnvVars (sampleWorld [("BP_GO_BUILD_FLAGS", "")] [])
            ["-ldflags=old", "-race"]) ∧
    (parseFlagsFromEnvVars (sampleWorld [("BP_GO_BUILD_FLAGS", "-v -tags=prod")] [])
        ["-race"] = (["-v", "-tags=prod"], none) ∧
      ∀ other : List String,
        parseFlagsFromEnvVars (sampleWorld [("BP_GO_BUILD_FLAGS", "-v -tags=prod")] []) other =
          parseFlagsFromEnvVars (sampleWorld [("BP_GO_BUILD_FLAGS", "-v -tags=prod")] [])
            ["-race"]) :=
  ⟨build_flags_replace_base (sampleWorld [("BP_GO_BUILD_FLAGS", "")] [])
      ["-ldflags=old", "-race"] "" [] (by decide) (by decide) (by decide),
    build_flags_replace_base (sampleWorld [("BP_GO_BUILD_FLAGS", "-v -tags=prod")] [])
      ["-race"] "-v -tags=prod" ["-v", "-tags=prod"] (by decide) (by decide) (by decide)⟩

/-- C2, as the specification words it, fails: the flags of buildpack.yml, and likewise the
tokens of `BP_GO_BUILD_FLAGS`, reach the result with two flags beginning with `-ldflags`. -/
theorem flags_two_ldflags_counterexample :
    (Parse (sampleWorld [] ["/workspace/buildpack.yml"])
        (sampleParser ⟨[], ["-ldflags=-s", "-ldflags=-w"], "", false⟩)
        "1.2.3" "/workspace").err = none ∧
    countLdflags (Parse (sampleWorld [] ["/workspace/buildpack.yml"])
        (sampleParser ⟨[], ["-ldflags=-s", "-ldflags=-w"], "", false⟩)
        "1.2.3" "/workspace").config.Flags = 2 ∧
    (Parse (sampleWorld [("BP_GO_BUILD_FLAGS", "-ldflags=-s -ldflags=-w")] [])
        (sampleParser BuildConfiguration.zero) "1.2.3" "/workspace").err = none ∧
    countLdflags (Parse (sampleWorld [("BP_GO_BUILD_FLAGS", "-ldflags=-s -ldflags=-w")] [])
        (sampleParser BuildConfiguration.zero) "1.2.3" "/workspace").config.Flags = 2 := by
  decide

/-- C2 (amended): in a successful `Parse` the returned flags contain at most one flag
beginning with `-ldflags` whenever the flag list entering the ldflags step (the tokens of
`BP_GO_BUILD_FLAGS` when it is set, the flags of buildpack.yml otherwise) contains at most
one. -/
theorem flags_at_most_one_ldflags (w : World) (p : BuildConfigurationParser)
    (buildpackVersion workingDir : String)
    (hok : (Parse w p buildpackVersion workingDir).err = none) :
    ∃ (calls : List Call) (base : BuildConfiguration) (flags : List String),
      loadBuildpackYML w p buildpackVersion workingDir = (calls, base, none) ∧
      applyBuildFlags w base.Flags = (flags, none) ∧
      (countLdflags flags ≤ 1 →
        countLdflags (Parse w p buildpackVersion workingDir).config.Flags ≤ 1) := by
  obtain ⟨c1, base, c2, targets, out, skip, gomod, h1, _, h3, _, _, hP⟩ :=
    Parse_ok_inv w p buildpackVersion workingDir hok
  rcases hb : applyBuildFlags w base.Flags with ⟨flags, e⟩
  cases e with
  | some err =>
    unfold parseFlagsFromEnvVars at h3
    simp [hb] at h3
  | none =>
    refine ⟨c1, base, flags, h1, hb, ?_⟩
    intro hcount
    rw [parseFlagsFromEnvVars_of_applyBuildFlags w base.Flags flags hb] at h3
    rw [hP]
    exact applyLdflags_count w flags out h3 hcount

/-- C2, on an example: one `-ldflags` flag in buildpack.yml and an override give one flag. -/
theorem flags_at_most_one_ldflags_witness :
    ∃ (calls : List Call) (base : BuildConfiguration) (flags : List String),
      loadBuildpackYML (sampleWorld [("BP_GO_BUILD_LDFLAGS", "-w")] ["/workspace/buildpack.yml"])
        (sampleParser ⟨[], ["-ldflags=-s", "-race"], "", false⟩) "1.2.3" "/workspace" =
        (calls, base, none) ∧
      applyBuildFlags (sampleWorld [("BP_GO_BUILD_LDFLAGS", "-w")] ["/workspace/buildpack.yml"])
        base.Flags = (flags, none) ∧
      (countLdflags flags ≤ 1 →
        countLdflags (Parse
          (sampleWorld [("BP_GO_BUILD_LDFLAGS", "-w")] ["/workspace/buildpack.yml"])
          (sampleParser ⟨[], ["-ldflags=-s", "-race"], "", false⟩)
          "1.2.3" "/workspace").config.Flags ≤ 1) :=
  flags_at_most_one_ldflags
    (sampleWorld [("BP_GO_BUILD_LDFLAGS", "-w")] ["/workspace/buildpack.yml"])
    (sampleParser ⟨[], ["-ldflags=-s", "-race"], "", false⟩) "1.2.3" "/workspace" (by decide)

/-- C5: when `BP_GO_BUILD_LDFLAGS` is set and the wrapped value tokenizes to a number of
tokens other than one, `parseFlagsFromEnvVars` fails for every base list (with the
multiple-words error whenever the `BP_GO_BUILD_FLAGS` step passed), `Parse` fails with the
zero configuration, and the error of `Parse` is that of `parseFlagsFromEnvVars` whenever the
stages before it passed; when the wrapped value tokenizes to one token, the ldflags step
does not fail. -/
theorem ldflags_must_be_one_token (w : World) (ldFlags : String) (parsed : List String)
    (hv : w.lookupEnv "BP_GO_BUILD_LDFLAGS" = some ldFlags)
    (ht : w.shellwordsParse w.getenv (wrapLdflags ldFlags) = (parsed, none)) :
    (parsed.length ≠ 1 →
      (∀ base : List String, (parseFlagsFromEnvVars w base).2 ≠ none) ∧
      (∀ base flags : List String, applyBuildFlags w base = (flags, none) →
        parseFlagsFromEnvVars w base = ([], some (multipleWordsError ldFlags))) ∧
      (∀ (p : BuildConfigurationParser) (buildpackVersion workingDir : String),
        (Parse w p buildpackVersion workingDir).err ≠ none ∧
        (Parse w p buildpackVersion workingDir).config = BuildConfiguration.zero) ∧
      (∀ (p : BuildConfigurationParser) (buildpackVersion workingDir : String)
        (c1 c2 : List Call) (base : BuildConfiguration) (targets : List String),
        loadBuildpackYML w p buildpackVersion workingDir = (c1, base, none) →
        resolveTargets p (targetsAfterEnv w base) workingDir = (c2, targets, none) →
        (Parse w p buildpackVersion workingDir).err =
          (parseFlagsFromEnvVars w base.Flags).2)) ∧
    (parsed.length = 1 → ∀ flags : List String, (applyLdflags w flags).2 = none) := by
  constructor
  · intro hlen
    have hstep : ∀ flags : List String,
        applyLdflags w flags = ([], some (multipleWordsError ldFlags)) := by
      intro flags
      unfold applyLdflags
      simp [hv, ht, hlen]
    have hfail : ∀ base : List String, (parseFlagsFromEnvVars w base).2 ≠ none := by
      intro base
      rcases hb : applyBuildFlags w base with ⟨flags, e⟩
      cases e with
      | some err => simp [parseFlagsFromEnvVars, hb]
      | none =>
        rw [parseFlagsFromEnvVars_of_applyBuildFlags w base flags hb, hstep flags]
        simp
    have hparse : ∀ (p : BuildConfigurationParser) (v d : String),
        (Parse w p v d).err ≠ none := by
      intro p v d hok
      obtain ⟨_, base, _, _, flags, _, _, _, _, h3, _⟩ := Parse_ok_inv w p v d hok
      exact hfail base.Flags (by rw [h3])
    refine ⟨hfail, ?_, ?_, ?_⟩
    · intro base flags hb
      rw [parseFlagsFromEnvVars_of_applyBuildFlags w base flags hb, hstep flags]
    · intro p v d
      exact ⟨hparse p v d, Parse_err_zero w p v d (hparse p v d)⟩
    · intro p v d c1 c2 base targets h1 h2
      exact Parse_flags_error w p v d c1 c2 base targets h1 h2 (hfail base.Flags)
  · intro hlen flags
    obtain ⟨t, rfl⟩ := List.length_eq_one.mp hlen
    rw [applyLdflags_single w flags ldFlags t hv ht]

/-- C5, on two examples: the value `a" "b` gives two tokens and no configuration, the value
`-s -w` gives one token and the ldflags step passes. -/
theorem ldflags_must_be_one_token_witness :
    ((∀ base : List String,
        (parseFlagsFromEnvVars (sampleWorld [("BP_GO_BUILD_LDFLAGS", "a\" \"b")] []) base).2 ≠
          none) ∧
      (∀ base flags : List String,
        applyBuildFlags (sampleWorld [("BP_GO_BUILD_LDFLAGS", "a\" \"b")] []) base =
          (flags, none) →
        parseFlagsFromEnvVars (sampleWorld [("BP_GO_BUILD_LDFLAGS", "a\" \"b")] []) base =
          ([], some (multipleWordsError "a\" \"b"))) ∧
      (∀ (p : BuildConfigurationParser) (buildpackVersion workingDir : String),
        (Parse (sampleWorld [("BP_GO_BUILD_LDFLAGS", "a\" \"b")] []) p
          buildpackVersion workingDir).err ≠ none ∧
        (Parse (sampleWorld [("BP_GO_BUILD_LDFLAGS", "a\" \"b")] []) p
          buildpackVersion workingDir).config = BuildConfiguration.zero) ∧
      (∀ (p : BuildConfigurationParser) (buildpackVersion workingDir : String)
        (c1 c2 : List Call) (base : BuildConfiguration) (targets : List String),
        loadBuildpackYML (sampleWorld [("BP_GO_BUILD_LDFLAGS", "a\" \"b")] []) p
          buildpackVersion workingDir = (c1, base, none) →
        resolveTargets p
          (targetsAfterEnv (sampleWorld [("BP_GO_BUILD_LDFLAGS", "a\" \"b")] []) base)
          workingDir = (c2, targets, none) →
        (Parse (sampleWorld [("BP_GO_BUILD_LDFLAGS", "a\" \"b")] []) p
          buildpackVersion workingDir).err =
          (parseFlagsFromEnvVars (sampleWorld [("BP_GO_BUILD_LDFLAGS", "a\" \"b")] [])
            base.Flags).2)) ∧
    (∀ flags : List String,
      (applyLdflags (sampleWorld [("BP_GO_BUILD_LDFLAGS", "-s -w")] []) flags).2 = none) :=
  ⟨(ldflags_must_be_one_token (sampleWorld [("BP_GO_BUILD_LDFLAGS", "a\" \"b")] [])
      "a\" \"b" ["-ldflags=a", "b"] (by decide) (by decide)).1 (by decide),
    (ldflags_must_be_one_token (sampleWorld [("BP_GO_BUILD_LDFLAGS", "-s -w")] [])
      "-s -w" ["-ldflags=-s -w"] (by decide) (by decide)).2 (by decide)⟩

/-! ## The targets -/

/-- C6: when `BP_GO_TARGETS` is set and the buildpack.yml stage has passed, the target list
is `SplitList` of the value, whatever targets buildpack.yml gave: a non-empty split goes to
`CleanAndValidate`, an empty one to `GenerateDefaults`; the value `a:b` leads to
`CleanAndValidate(["a", "b"], workingDir)` and the empty value to
`GenerateDefaults(workingDir)`. -/
theorem env_targets_replace_yml_targets (w : World) (p : BuildConfigurationParser)
    (buildpackVersion workingDir val : String) (c1 : List Call) (base : BuildConfiguration)
    (henv : w.lookupEnv "BP_GO_TARGETS" = some val)
    (h1 : loadBuildpackYML w p buildpackVersion workingDir = (c1, base, none)) :
    targetsAfterEnv w base = SplitList val ∧
    (SplitList val ≠ [] →
      (Parse w p buildpackVersion workingDir).targetManagerCalls =
        [Call.cleanAndValidate (SplitList val) workingDir]) ∧
    (SplitList val = [] →
      (Parse w p buildpackVersion workingDir).targetManagerCalls =
        [Call.generateDefaults workingDir]) ∧
    (val = "a:b" →
      (Parse w p buildpackVersion workingDir).targetManagerCalls =
        [Call.cleanAndValidate ["a", "b"] workingDir]) ∧
    (val = "" →
      (Parse w p buildpackVersion workingDir).targetManagerCalls =
        [Call.generateDefaults workingDir]) := by
  have ht : targetsAfterEnv w base = SplitList val := by
    unfold targetsAfterEnv
    simp only [henv]
  have hcalls := Parse_targetManagerCalls w p buildpackVersion workingDir c1 base h1
  rw [ht] at hcalls
  have hab : SplitList "a:b" = ["a", "b"] := by decide
  have hempty : SplitList "" = [] := by decide
  refine ⟨ht, ?_, ?_, ?_, ?_⟩
  · intro hne; rw [hcalls, if_pos hne]
  · intro hnil
    rw [hcalls, hnil]
    simp
  · intro hval
    subst hval
    rw [hcalls, hab]
    simp
  · intro hval
    subst hval
    rw [hcalls, hempty]
    simp

/-- C6, on two examples in which buildpack.yml names the targets `x` and `y`: the value
`a:b` goes to `CleanAndValidate(["a", "b"])` and the empty value to `GenerateDefaults`. -/
theorem env_targets_replace_yml_targets_witness :
    (Parse (sampleWorld [("BP_GO_TARGETS", "a:b")] ["/workspace/buildpack.yml"])
        (sampleParser ⟨["x", "y"], [], "", false⟩) "1.2.3" "/workspace").targetManagerCalls =
      [Call.cleanAndValidate ["a", "b"] "/workspace"] ∧
    (Parse (sampleWorld [("BP_GO_TARGETS", "")] ["/workspace/buildpack.yml"])
        (sampleParser ⟨["x", "y"], [], "", false⟩) "1.2.3" "/workspace").targetManagerCalls =
      [Call.generateDefaults "/workspace"] :=
  ⟨(env_targets_replace_yml_targets
      (sampleWorld [("BP_GO_TARGETS", "a:b")] ["/workspace/buildpack.yml"])
      (sampleParser ⟨["x", "y"], [], "", false⟩) "1.2.3" "/workspace" "a:b"
      [Call.buildpackYMLParse "1.2.3" "/workspace"] ⟨["x", "y"], [], "", false⟩
      (by decide) (by decide)).2.2.2.1 rfl,
    (env_targets_replace_yml_targets
      (sampleWorld [("BP_GO_TARGETS", "")] ["/workspace/buildpack.yml"])
      (sampleParser ⟨["x", "y"], [], "", false⟩) "1.2.3" "/workspace" ""
      [Call.buildpackYMLParse "1.2.3" "/workspace"] ⟨["x", "y"], [], "", false⟩
      (by decide) (by decide)).2.2.2.2 rfl⟩

/-- C7: once the buildpack.yml stage has passed, `Parse` makes exactly one `TargetManager`
call: `CleanAndValidate` on the target list left by the environment override when that list
is not empty, `GenerateDefaults` when it is empty. A successful `Parse` returns the targets
that call returned, and an error of that call is the error of `Parse`. -/
theorem exactly_one_target_manager_call (w : World) (p : BuildConfigurationParser)
    (buildpackVersion workingDir : String) (c1 : List Call) (base : BuildConfiguration)
    (h1 : loadBuildpackYML w p buildpackVersion workingDir = (c1, base, none)) :
    (targetsAfterEnv w base ≠ [] →
      (Parse w p buildpackVersion workingDir).targetManagerCalls =
        [Call.cleanAndValidate (targetsAfterEnv w base) workingDir] ∧
      ((Parse w p buildpackVersion workingDir).err = none →
        (Parse w p buildpackVersion workingDir).config.Targets =
          (p.targetManager.CleanAndValidate (targetsAfterEnv w base) workingDir).1) ∧
      (∀ e : GoError,
        (p.targetManager.CleanAndValidate (targetsAfterEnv w base) workingDir).2 = some e →
        (Parse w p buildpackVersion workingDir).err = some e)) ∧
    (targetsAfterEnv w base = [] →
      (Parse w p buildpackVersion workingDir).targetManagerCalls =
        [Call.generateDefaults workingDir] ∧
      ((Parse w p buildpackVersion workingDir).err = none →
        (Parse w p buildpackVersion workingDir).config.Targets =
          (p.targetManager.GenerateDefaults workingDir).1) ∧
      (∀ e : GoError, (p.targetManager.GenerateDefaults workingDir).2 = some e →
        (Parse w p buildpackVersion workingDir).err = some e)) := by
  have hcalls := Parse_targetManagerCalls w p buildpackVersion workingDir c1 base h1
  have hT := Parse_targets w p buildpackVersion workingDir c1 base h1
  constructor
  · intro hne
    have hr := resolveTargets_nonempty p (targetsAfterEnv w base) workingDir hne
    refine ⟨by rw [hcalls, if_pos hne], ?_, ?_⟩
    · intro hok
      obtain ⟨hts, hnone⟩ := hT.1 hok
      rw [hts]
      exact hr.2.2 (by rw [← hr.2.1]; exact hnone)
    · intro e he
      exact hT.2 e (by rw [hr.2.1]; exact he)
  · intro hnil
    have hr := resolveTargets_empty p workingDir
    rw [hnil] at hT
    refine ⟨by rw [hcalls, hnil]; simp, ?_, ?_⟩
    · intro hok
      obtain ⟨hts, hnone⟩ := hT.1 hok
      rw [hts]
      exact hr.2.2 (by rw [← hr.2.1]; exact hnone)
    · intro e he
      exact hT.2 e (by rw [hr.2.1]; exact he)

/-- C7, on two examples: with the targets `x` and `y` of buildpack.yml the one call is
`CleanAndValidate` and its failure is the failure of `Parse`; with no targets the one call is
`GenerateDefaults` and its result is returned. -/
theorem exactly_one_target_manager_call_witness :
    ((Parse (sampleWorld [] ["/workspace/buildpack.yml"])
        (failingParser ⟨["x", "y"], [], "", false⟩) "1.2.3" "/workspace").targetManagerCalls =
        [Call.cleanAndValidate ["x", "y"] "/workspace"] ∧
      (Parse (sampleWorld [] ["/workspace/buildpack.yml"])
        (failingParser ⟨["x", "y"], [], "", false⟩) "1.2.3" "/workspace").err =
        some "invalid target") ∧
    ((Parse (sampleWorld [] []) (sampleParser BuildConfiguration.zero)
        "1.2.3" "/workspace").targetManagerCalls = [Call.generateDefaults "/workspace"] ∧
      (Parse (sampleWorld [] []) (sampleParser BuildConfiguration.zero)
        "1.2.3" "/workspace").config.Targets = ["."]) :=
  ⟨⟨((exactly_one_target_manager_call (sampleWorld [] ["/workspace/buildpack.yml"])
        (failingParser ⟨["x", "y"], [], "", false⟩) "1.2.3" "/workspace"
        [Call.buildpackYMLParse "1.2.3" "/workspace"] ⟨["x", "y"], [], "", false⟩
        (by decide)).1 (by decide)).1,
      ((exactly_one_target_manager_call (sampleWorld [] ["/workspace/buildpack.yml"])
        (failingParser ⟨["x", "y"], [], "", false⟩) "1.2.3" "/workspace"
        [Call.buildpackYMLParse "1.2.3" "/workspace"] ⟨["x", "y"], [], "", false⟩
        (by decide)).1 (by decide)).2.2 "invalid target" (by decide)⟩,
    ⟨((exactly_one_target_manager_call (sampleWorld [] [])
        (sampleParser BuildConfiguration.zero) "1.2.3" "/workspace"
        [] BuildConfiguration.zero (by decide)).2 (by decide)).1,
      ((exactly_one_target_manager_call (sampleWorld [] [])
        (sampleParser BuildConfiguration.zero) "1.2.3" "/workspace"
        [] BuildConfiguration.zero (by decide)).2 (by decide)).2.1 (by decide)⟩⟩

/-! ## The module BOM -/

/-- C8, as the specification words it, fails in its last part: the tokenizer expands
environment variables, so with `BP_GO_BUILD_LDFLAGS` set to
`-X main.bom=$BP_DISABLE_MODULE_BOM` the value `false` of `BP_DISABLE_MODULE_BOM` and the
unset variable give different flags. -/
theorem disable_module_bom_false_counterexample :
    (Parse (sampleWorld [("BP_DISABLE_MODULE_BOM", "false"),
          ("BP_GO_BUILD_LDFLAGS", "-X main.bom=$BP_DISABLE_MODULE_BOM")] ["/workspace/go.mod"])
        (sampleParser BuildConfiguration.zero) "1.2.3" "/workspace").err = none ∧
    (Parse (sampleWorld [("BP_DISABLE_MODULE_BOM", "false"),
          ("BP_GO_BUILD_LDFLAGS", "-X main.bom=$BP_DISABLE_MODULE_BOM")] ["/workspace/go.mod"])
        (sampleParser BuildConfiguration.zero) "1.2.3" "/workspace").config.Flags =
      ["-ldflags=-X main.bom=false"] ∧
    (Parse (sampleWorld [("BP_GO_BUILD_LDFLAGS", "-X main.bom=$BP_DISABLE_MODULE_BOM")]
          ["/workspace/go.mod"])
        (sampleParser BuildConfiguration.zero) "1.2.3" "/workspace").err = none ∧
    (Parse (sampleWorld [("BP_GO_BUILD_LDFLAGS", "-X main.bom=$BP_DISABLE_MODULE_BOM")]
          ["/workspace/go.mod"])
        (sampleParser BuildConfiguration.zero) "1.2.3" "/workspace").config.Flags =
      ["-ldflags=-X main.bom="] ∧
    Parse (sampleWorld [("BP_DISABLE_MODULE_BOM", "false"),
          ("BP_GO_BUILD_LDFLAGS", "-X main.bom=$BP_DISABLE_MODULE_BOM")] ["/workspace/go.mod"])
        (sampleParser BuildConfiguration.zero) "1.2.3" "/workspace" ≠
      Parse (sampleWorld [("BP_GO_BUILD_LDFLAGS", "-X main.bom=$BP_DISABLE_MODULE_BOM")]
          ["/workspace/go.mod"])
        (sampleParser BuildConfiguration.zero) "1.2.3" "/workspace" := by
  decide

/-- C8 (amended): in a successful `Parse`, `GenerateBOM` is "`go.mod` exists and not skip",
where skip is false when `BP_DISABLE_MODULE_BOM` is not set and its parsed value otherwise;
nothing of the buildpack.yml configuration enters. The value `true` gives
`GenerateBOM = false`. The value `false` gives the same run as the unset variable whenever
the value of `BP_GO_BUILD_FLAGS` and the wrapped value of `BP_GO_BUILD_LDFLAGS` tokenize to
the same in the two environments; in every case it gives the same collaborator calls and,
when both runs succeed, the same targets, import path and `GenerateBOM`. -/
theorem generate_bom_from_probe_and_switch (w : World) (p : BuildConfigurationParser)
    (buildpackVersion workingDir : String) :
    ((Parse w p buildpackVersion workingDir).err = none →
      (Parse w p buildpackVersion workingDir).config.GenerateBOM =
        (decide (w.stat (w.filepathJoin workingDir "go.mod") = StatResult.found) &&
          !(match w.lookupEnv "BP_DISABLE_MODULE_BOM" with
            | some value => (ParseBool w.strconvQuote value).1
            | none => false))) ∧
    (w.lookupEnv "BP_DISABLE_MODULE_BOM" = some "true" →
      (Parse w p buildpackVersion workingDir).config.GenerateBOM = false) ∧
    ((∀ buildFlags : String, w.lookupEnv "BP_GO_BUILD_FLAGS" = some buildFlags →
        w.shellwordsParse (w.setenv "BP_DISABLE_MODULE_BOM" "false").getenv buildFlags =
          w.shellwordsParse (w.unsetenv "BP_DISABLE_MODULE_BOM").getenv buildFlags) →
      (∀ ldFlags : String, w.lookupEnv "BP_GO_BUILD_LDFLAGS" = some ldFlags →
        w.shellwordsParse (w.setenv "BP_DISABLE_MODULE_BOM" "false").getenv
            (wrapLdflags ldFlags) =
          w.shellwordsParse (w.unsetenv "BP_DISABLE_MODULE_BOM").getenv
            (wrapLdflags ldFlags)) →
      Parse (w.setenv "BP_DISABLE_MODULE_BOM" "false") p buildpackVersion workingDir =
        Parse (w.unsetenv "BP_DISABLE_MODULE_BOM") p buildpackVersion workingDir) ∧
    ((Parse (w.setenv "BP_DISABLE_MODULE_BOM" "false") p buildpackVersion workingDir).calls =
        (Parse (w.unsetenv "BP_DISABLE_MODULE_BOM") p buildpackVersion workingDir).calls ∧
      ((Parse (w.setenv "BP_DISABLE_MODULE_BOM" "false") p
          buildpackVersion workingDir).err = none →
        (Parse (w.unsetenv "BP_DISABLE_MODULE_BOM") p
          buildpackVersion workingDir).err = none →
        (Parse (w.setenv "BP_DISABLE_MODULE_BOM" "false") p
            buildpackVersion workingDir).config.Targets =
          (Parse (w.unsetenv "BP_DISABLE_MODULE_BOM") p
            buildpackVersion workingDir).config.Targets ∧
        (Parse (w.setenv "BP_DISABLE_MODULE_BOM" "false") p
            buildpackVersion workingDir).config.ImportPath =
          (Parse (w.unsetenv "BP_DISABLE_MODULE_BOM") p
            buildpackVersion workingDir).config.ImportPath ∧
        (Parse (w.setenv "BP_DISABLE_MODULE_BOM" "false") p
            buildpackVersion workingDir).config.GenerateBOM =
          (Parse (w.unsetenv "BP_DISABLE_MODULE_BOM") p
            buildpackVersion workingDir).config.GenerateBOM)) := by
  have hyml : loadBuildpackYML (w.setenv "BP_DISABLE_MODULE_BOM" "false") p
      buildpackVersion workingDir =
      loadBuildpackYML (w.unsetenv "BP_DISABLE_MODULE_BOM") p buildpackVersion workingDir :=
    rfl
  have htgt : ∀ base : BuildConfiguration,
      targetsAfterEnv (w.setenv "BP_DISABLE_MODULE_BOM" "false") base =
        targetsAfterEnv (w.unsetenv "BP_DISABLE_MODULE_BOM") base := by
    intro base
    simp [targetsAfterEnv, World.setenv, World.unsetenv]
  have himport : (w.setenv "BP_DISABLE_MODULE_BOM" "false").lookupEnv
      "BP_GO_BUILD_IMPORT_PATH" =
      (w.unsetenv "BP_DISABLE_MODULE_BOM").lookupEnv "BP_GO_BUILD_IMPORT_PATH" := by
    simp [World.setenv, World.unsetenv]
  have hflags : (w.setenv "BP_DISABLE_MODULE_BOM" "false").lookupEnv "BP_GO_BUILD_FLAGS" =
      w.lookupEnv "BP_GO_BUILD_FLAGS" := by
    simp [World.setenv]
  have hflags' : (w.unsetenv "BP_DISABLE_MODULE_BOM").lookupEnv "BP_GO_BUILD_FLAGS" =
      w.lookupEnv "BP_GO_BUILD_FLAGS" := by
    simp [World.unsetenv]
  have hld : (w.setenv "BP_DISABLE_MODULE_BOM" "false").lookupEnv "BP_GO_BUILD_LDFLAGS" =
      w.lookupEnv "BP_GO_BUILD_LDFLAGS" := by
    simp [World.setenv]
  have hld' : (w.unsetenv "BP_DISABLE_MODULE_BOM").lookupEnv "BP_GO_BUILD_LDFLAGS" =
      w.lookupEnv "BP_GO_BUILD_LDFLAGS" := by
    simp [World.unsetenv]
  have hskip : skipBomGeneration (w.setenv "BP_DISABLE_MODULE_BOM" "false") =
      skipBomGeneration (w.unsetenv "BP_DISABLE_MODULE_BOM") := by
    simp [skipBomGeneration, World.setenv, World.unsetenv, ParseBool]
  have hgm : validateGoModFile (w.setenv "BP_DISABLE_MODULE_BOM" "false") workingDir =
      validateGoModFile (w.unsetenv "BP_DISABLE_MODULE_BOM") workingDir :=
    rfl
  refine ⟨Parse_generateBOM w p buildpackVersion workingDir, ?_, ?_, ?_⟩
  · intro htrue
    cases herr : (Parse w p buildpackVersion workingDir).err with
    | none =>
      rw [Parse_generateBOM w p buildpackVersion workingDir herr, htrue]
      simp [ParseBool]
    | some e =>
      have hne : (Parse w p buildpackVersion workingDir).err ≠ none := by simp [herr]
      rw [Parse_err_zero w p buildpackVersion workingDir hne]
      rfl
  · intro hft hlt
    apply Parse_congr _ _ p buildpackVersion workingDir hyml htgt _ himport hskip hgm
    apply parseFlagsFromEnvVars_congr
    · rw [hflags, hflags']
    · rw [hld, hld']
    · intro buildFlags hv
      rw [hflags] at hv
      exact hft buildFlags hv
    · intro ldFlags hv
      rw [hld] at hv
      exact hlt ldFlags hv
  · exact Parse_congr_but_flags _ _ p buildpackVersion workingDir hyml htgt himport hskip hgm

/-- C8, on examples with `go.mod` in the working directory: unset gives `GenerateBOM = true`
by the formula, `true` gives `false`, and `false` gives the run of the unset variable when
the flags mention another variable only. -/
theorem generate_bom_from_probe_and_switch_witness :
    (Parse (sampleWorld [] ["/workspace/go.mod"]) (sampleParser BuildConfiguration.zero)
        "1.2.3" "/workspace").config.GenerateBOM =
      (decide ((sampleWorld [] ["/workspace/go.mod"]).stat
          ((sampleWorld [] ["/workspace/go.mod"]).filepathJoin "/workspace" "go.mod") =
          StatResult.found) &&
        !(match (sampleWorld [] ["/workspace/go.mod"]).lookupEnv "BP_DISABLE_MODULE_BOM" with
          | some value =>
            (ParseBool (sampleWorld [] ["/workspace/go.mod"]).strconvQuote value).1
          | none => false)) ∧
    (Parse (sampleWorld [("BP_DISABLE_MODULE_BOM", "true")] ["/workspace/go.mod"])
        (sampleParser BuildConfiguration.zero) "1.2.3" "/workspace").config.GenerateBOM =
      false ∧
    Parse ((sampleWorld [("BP_GO_BUILD_FLAGS", "-v -tags=$TAGS"), ("TAGS", "prod")]
        ["/workspace/go.mod"]).setenv "BP_DISABLE_MODULE_BOM" "false")
        (sampleParser BuildConfiguration.zero) "1.2.3" "/workspace" =
      Parse ((sampleWorld [("BP_GO_BUILD_FLAGS", "-v -tags=$TAGS"), ("TAGS", "prod")]
        ["/workspace/go.mod"]).unsetenv "BP_DISABLE_MODULE_BOM")
        (sampleParser BuildConfiguration.zero) "1.2.3" "/workspace" :=
  ⟨(generate_bom_from_probe_and_switch (sampleWorld [] ["/workspace/go.mod"])
      (sampleParser BuildConfiguration.zero) "1.2.3" "/workspace").1 (by decide),
    (generate_bom_from_probe_and_switch
      (sampleWorld [("BP_DISABLE_MODULE_BOM", "true")] ["/workspace/go.mod"])
      (sampleParser BuildConfiguration.zero) "1.2.3" "/workspace").2.1 (by decide),
    (generate_bom_from_probe_and_switch
      (sampleWorld [("BP_GO_BUILD_FLAGS", "-v -tags=$TAGS"), ("TAGS", "prod")]
        ["/workspace/go.mod"])
      (sampleParser BuildConfiguration.zero) "1.2.3" "/workspace").2.2.1
      (fun buildFlags hv => by
        obtain rfl : "-v -tags=$TAGS" = buildFlags :=
          Option.some.inj ((by decide :
            (sampleWorld [("BP_GO_BUILD_FLAGS", "-v -tags=$TAGS"), ("TAGS", "prod")]
              ["/workspace/go.mod"]).lookupEnv "BP_GO_BUILD_FLAGS" =
              some "-v -tags=$TAGS").symm.trans hv)
        decide)
      (fun ldFlags hv => by
        have hnone : (sampleWorld [("BP_GO_BUILD_FLAGS", "-v -tags=$TAGS"), ("TAGS", "prod")]
            ["/workspace/go.mod"]).lookupEnv "BP_GO_BUILD_LDFLAGS" = none := by decide
        rw [hnone] at hv
        exact Option.noConfusion hv)⟩

/-- C9, as the specification words it, fails: the value `1` is neither `true` nor `false`,
yet `Parse` succeeds and treats it as true (`GenerateBOM` is false although `go.mod` is
there, whereas the unset variable gives true). -/
theorem disable_module_bom_one_counterexample :
    "1" ≠ "true" ∧ "1" ≠ "false" ∧
    (Parse (sampleWorld [("BP_DISABLE_MODULE_BOM", "1")] ["/workspace/go.mod"])
        (sampleParser BuildConfiguration.zero) "1.2.3" "/workspace").err = none ∧
    (Parse (sampleWorld [("BP_DISABLE_MODULE_BOM", "1")] ["/workspace/go.mod"])
        (sampleParser BuildConfiguration.zero) "1.2.3" "/workspace").config.GenerateBOM =
      false ∧
    (Parse (sampleWorld [] ["/workspace/go.mod"])
        (sampleParser BuildConfiguration.zero) "1.2.3" "/workspace").config.GenerateBOM =
      true := by
  decide

/-- C9 (amended): when `BP_DISABLE_MODULE_BOM` is set, `Parse` accepts exactly the twelve
texts of `strconv.ParseBool`: `1`, `t`, `T`, `TRUE`, `true`, `True` are read as true, so that
a successful `Parse` has `GenerateBOM = false`, and `0`, `f`, `F`, `FALSE`, `false`, `False`
as false, so that `GenerateBOM` tells whether `go.mod` exists. For every other value `Parse`
fails with the zero configuration, and with the syntax error of `ParseBool` when the stages
before it passed; for an accepted value, and when the variable is not set, those stages
having passed, the only error left is that of the `go.mod` probe. -/
theorem disable_module_bom_accepted_texts (w : World) (p : BuildConfigurationParser)
    (buildpackVersion workingDir : String) :
    (∀ value : String, w.lookupEnv "BP_DISABLE_MODULE_BOM" = some value →
      value ∉ boolTexts →
      (Parse w p buildpackVersion workingDir).err ≠ none ∧
      (Parse w p buildpackVersion workingDir).config = BuildConfiguration.zero ∧
      (∀ (c1 c2 : List Call) (base : BuildConfiguration) (targets flags : List String),
        loadBuildpackYML w p buildpackVersion workingDir = (c1, base, none) →
        resolveTargets p (targetsAfterEnv w base) workingDir = (c2, targets, none) →
        parseFlagsFromEnvVars w base.Flags = (flags, none) →
        (Parse w p buildpackVersion workingDir).err =
          some ("strconv.ParseBool: parsing " ++ w.strconvQuote value ++
            ": invalid syntax"))) ∧
    (∀ value : String, w.lookupEnv "BP_DISABLE_MODULE_BOM" = some value →
      value ∈ boolTexts →
      ∀ (c1 c2 : List Call) (base : BuildConfiguration) (targets flags : List String),
        loadBuildpackYML w p buildpackVersion workingDir = (c1, base, none) →
        resolveTargets p (targetsAfterEnv w base) workingDir = (c2, targets, none) →
        parseFlagsFromEnvVars w base.Flags = (flags, none) →
        (Parse w p buildpackVersion workingDir).err = (validateGoModFile w workingDir).2) ∧
    (w.lookupEnv "BP_DISABLE_MODULE_BOM" = none →
      ∀ (c1 c2 : List Call) (base : BuildConfiguration) (targets flags : List String),
        loadBuildpackYML w p buildpackVersion workingDir = (c1, base, none) →
        resolveTargets p (targetsAfterEnv w base) workingDir = (c2, targets, none) →
        parseFlagsFromEnvVars w base.Flags = (flags, none) →
        (Parse w p buildpackVersion workingDir).err = (validateGoModFile w workingDir).2) ∧
    boolTexts = trueTexts ++ falseTexts ∧
    (∀ value : String, w.lookupEnv "BP_DISABLE_MODULE_BOM" = some value →
      value ∈ trueTexts →
      ParseBool w.strconvQuote value = (true, none) ∧
      skipBomGeneration w = (true, none) ∧
      ((Parse w p buildpackVersion workingDir).err = none →
        (Parse w p buildpackVersion workingDir).config.GenerateBOM = false)) ∧
    (∀ value : String, w.lookupEnv "BP_DISABLE_MODULE_BOM" = some value →
      value ∈ falseTexts →
      ParseBool w.strconvQuote value = (false, none) ∧
      skipBomGeneration w = (false, none) ∧
      ((Parse w p buildpackVersion workingDir).err = none →
        (Parse w p buildpackVersion workingDir).config.GenerateBOM =
          decide (w.stat (w.filepathJoin workingDir "go.mod") = StatResult.found))) := by
  refine ⟨?_, ?_, ?_, rfl, ?_, ?_⟩
  · intro value hv hbad
    have hskip : skipBomGeneration w = ParseBool w.strconvQuote value := by
      unfold skipBomGeneration
      simp only [hv]
    have htext := ParseBool_of_not_boolTexts w.strconvQuote value hbad
    have hfail : (Parse w p buildpackVersion workingDir).err ≠ none := by
      intro hok
      obtain ⟨_, _, _, _, _, skip, _, _, _, _, h4, _⟩ :=
        Parse_ok_inv w p buildpackVersion workingDir hok
      rw [hskip, htext] at h4
      simp at h4
    refine ⟨hfail, Parse_err_zero w p buildpackVersion workingDir hfail, ?_⟩
    intro c1 c2 base targets flags h1 h2 h3
    rw [Parse_err_after_flags w p buildpackVersion workingDir c1 c2 base targets flags h1 h2 h3,
      hskip, htext]
  · intro value hv hgood c1 c2 base targets flags h1 h2 h3
    have hskip : skipBomGeneration w = ParseBool w.strconvQuote value := by
      unfold skipBomGeneration
      simp only [hv]
    rw [Parse_err_after_flags w p buildpackVersion workingDir c1 c2 base targets flags h1 h2 h3,
      hskip, (ParseBool_err_none_iff w.strconvQuote value).mpr hgood]
  · intro hv c1 c2 base targets flags h1 h2 h3
    have hskip : skipBomGeneration w = (false, none) := by
      unfold skipBomGeneration
      simp only [hv]
    rw [Parse_err_after_flags w p buildpackVersion workingDir c1 c2 base targets flags h1 h2 h3,
      hskip]
  · intro value hv htrue
    have hpb := ParseBool_of_trueTexts w.strconvQuote value htrue
    have hskip : skipBomGeneration w = (true, none) := by
      unfold skipBomGeneration
      simp only [hv, hpb]
    refine ⟨hpb, hskip, ?_⟩
    intro hok
    rw [Parse_generateBOM w p buildpackVersion workingDir hok, hv]
    simp [hpb]
  · intro value hv hfalse
    have hpb := ParseBool_of_falseTexts w.strconvQuote value hfalse
    have hskip : skipBomGeneration w = (false, none) := by
      unfold skipBomGeneration
      simp only [hv, hpb]
    refine ⟨hpb, hskip, ?_⟩
    intro hok
    rw [Parse_generateBOM w p buildpackVersion workingDir hok, hv]
    simp [hpb]

/-- C9, on examples: the text `yes` is rejected with the syntax error of `ParseBool`; with
`go.mod` there, the text `T` gives `GenerateBOM = false` and the text `F` gives
`GenerateBOM = true`; with the variable unset there is no error. -/
theorem disable_module_bom_accepted_texts_witness :
    ((Parse (sampleWorld [("BP_DISABLE_MODULE_BOM", "yes")] [])
        (sampleParser BuildConfiguration.zero) "1.2.3" "/workspace").err ≠ none ∧
      (Parse (sampleWorld [("BP_DISABLE_MODULE_BOM", "yes")] [])
        (sampleParser BuildConfiguration.zero) "1.2.3" "/workspace").config =
        BuildConfiguration.zero ∧
      (Parse (sampleWorld [("BP_DISABLE_MODULE_BOM", "yes")] [])
        (sampleParser BuildConfiguration.zero) "1.2.3" "/workspace").err =
        some "strconv.ParseBool: parsing \"yes\": invalid syntax") ∧
    (Parse (sampleWorld [("BP_DISABLE_MODULE_BOM", "T")] ["/workspace/go.mod"])
        (sampleParser BuildConfiguration.zero) "1.2.3" "/workspace").err =
      (validateGoModFile (sampleWorld [("BP_DISABLE_MODULE_BOM", "T")] ["/workspace/go.mod"])
        "/workspace").2 ∧
    (Parse (sampleWorld [] []) (sampleParser BuildConfiguration.zero)
        "1.2.3" "/workspace").err =
      (validateGoModFile (sampleWorld [] []) "/workspace").2 ∧
    (Parse (sampleWorld [("BP_DISABLE_MODULE_BOM", "T")] ["/workspace/go.mod"])
        (sampleParser BuildConfiguration.zero) "1.2.3" "/workspace").config.GenerateBOM =
      false ∧
    (Parse (sampleWorld [("BP_DISABLE_MODULE_BOM", "F")] ["/workspace/go.mod"])
        (sampleParser BuildConfiguration.zero) "1.2.3" "/workspace").config.GenerateBOM =
      true :=
  ⟨⟨((disable_module_bom_accepted_texts (sampleWorld [("BP_DISABLE_MODULE_BOM", "yes")] [])
        (sampleParser BuildConfiguration.zero) "1.2.3" "/workspace").1 "yes"
        (by decide) (by decide)).1,
      ((disable_module_bom_accepted_texts (sampleWorld [("BP_DISABLE_MODULE_BOM", "yes")] [])
        (sampleParser BuildConfiguration.zero) "1.2.3" "/workspace").1 "yes"
        (by decide) (by decide)).2.1,
      ((disable_module_bom_accepted_texts (sampleWorld [("BP_DISABLE_MODULE_BOM", "yes")] [])
        (sampleParser BuildConfiguration.zero) "1.2.3" "/workspace").1 "yes"
        (by decide) (by decide)).2.2 [] [Call.generateDefaults "/workspace"]
        BuildConfiguration.zero ["."] [] (by decide) (by decide) (by decide)⟩,
    (disable_module_bom_accepted_texts
      (sampleWorld [("BP_DISABLE_MODULE_BOM", "T")] ["/workspace/go.mod"])
      (sampleParser BuildConfiguration.zero) "1.2.3" "/workspace").2.1 "T"
      (by decide) (by decide) [] [Call.generateDefaults "/workspace"]
      BuildConfiguration.zero ["."] [] (by decide) (by decide) (by decide),
    (disable_module_bom_accepted_texts (sampleWorld [] [])
      (sampleParser BuildConfiguration.zero) "1.2.3" "/workspace").2.2.1
      (by decide) [] [Call.generateDefaults "/workspace"]
      BuildConfiguration.zero ["."] [] (by decide) (by decide) (by decide),
    ((disable_module_bom_accepted_texts
      (sampleWorld [("BP_DISABLE_MODULE_BOM", "T")] ["/workspace/go.mod"])
      (sampleParser BuildConfiguration.zero) "1.2.3" "/workspace").2.2.2.2.1 "T"
      (by decide) (by decide)).2.2 (by decide),
    ((disable_module_bom_accepted_texts
      (sampleWorld [("BP_DISABLE_MODULE_BOM", "F")] ["/workspace/go.mod"])
      (sampleParser BuildConfiguration.zero) "1.2.3" "/workspace").2.2.2.2.2 "F"
      (by decide) (by decide)).2.2 (by decide)⟩

/-! ## Detection -/

/-- C10: when `parser.Parse` fails, `Detect` returns the empty `DetectResult` and an error;
otherwise it returns no error and a plan whose requirements start with `go` (build = true),
contain `cyclonedx-gomod` (build = true) exactly when `GenerateBOM` is true, and number two
when `GenerateBOM` is true and one otherwise. -/
theorem detect_requirements (parser : ConfigurationParser) (context : DetectContext) :
    match parser.Parse context.BuildpackInfo.Version context.WorkingDir with
    | (_, some _) =>
      (Detect parser context).1 = DetectResult.zero ∧ (Detect parser context).2 ≠ none
    | (buildConfiguration, none) =>
      (Detect parser context).2 = none ∧
      (Detect parser context).1.Plan.Requires.head? =
        some { Name := "go", Metadata := [("build", true)] } ∧
      (({ Name := "cyclonedx-gomod", Metadata := [("build", true)] } : BuildPlanRequirement) ∈
          (Detect parser context).1.Plan.Requires ↔ buildConfiguration.GenerateBOM = true) ∧
      ((∃ r ∈ (Detect parser context).1.Plan.Requires, r.Name = "cyclonedx-gomod") ↔
        buildConfiguration.GenerateBOM = true) ∧
      (Detect parser context).1.Plan.Requires.length =
        if buildConfiguration.GenerateBOM = true then 2 else 1 := by
  rcases hp : parser.Parse context.BuildpackInfo.Version context.WorkingDir with ⟨cfg, e⟩
  cases e with
  | some err => simp [Detect, hp]
  | none =>
    cases hg : cfg.GenerateBOM <;> simp [Detect, hp, hg]

/-! ## The resolved configuration -/

/-- The configuration that the buildpack.yml stage hands on, from the probe and the
buildpack.yml parser. -/
theorem loadBuildpackYML_base (w : World) (p : BuildConfigurationParser) (v d : String)
    (c1 : List Call) (base : BuildConfiguration)
    (h1 : loadBuildpackYML w p v d = (c1, base, none)) :
    base =
      match w.stat (w.filepathJoin d "buildpack.yml") with
      | StatResult.found => (p.buildpackYMLParser.Parse v d).1
      | _ => BuildConfiguration.zero := by
  unfold loadBuildpackYML at h1
  cases hs : w.stat (w.filepathJoin d "buildpack.yml") with
  | failed err => simp [hs] at h1
  | notExist =>
    simp only [hs, Prod.mk.injEq] at h1
    exact h1.2.1.symm
  | found =>
    rcases hy : p.buildpackYMLParser.Parse v d with ⟨cfg, e⟩
    cases e with
    | some err => simp [hs, hy] at h1
    | none =>
      simp only [hs, hy, Prod.mk.injEq] at h1
      exact h1.2.1.symm

/-- C11, as the specification words it, fails: `Parse` hands on what the `TargetManager`
returns, so a `TargetManager` that succeeds with no target gives a successful result with
an empty target list. -/
theorem targets_empty_counterexample :
    (Parse (sampleWorld [] []) (emptyTargetsParser BuildConfiguration.zero)
        "1.2.3" "/workspace").err = none ∧
    (Parse (sampleWorld [] []) (emptyTargetsParser BuildConfiguration.zero)
        "1.2.3" "/workspace").config.Targets = [] ∧
    (Parse (sampleWorld [("BP_GO_TARGETS", "a:b")] [])
        (emptyTargetsParser BuildConfiguration.zero) "1.2.3" "/workspace").err = none ∧
    (Parse (sampleWorld [("BP_GO_TARGETS", "a:b")] [])
        (emptyTargetsParser BuildConfiguration.zero) "1.2.3" "/workspace").config.Targets =
      [] := by
  decide

/-- C11 (amended): in a successful `Parse` the returned targets are the list that the one
`TargetManager` call returned (`CleanAndValidate` on a non-empty target list,
`GenerateDefaults` otherwise); they are non-empty exactly when that list is. -/
theorem targets_are_the_target_manager_result (w : World) (p : BuildConfigurationParser)
    (buildpackVersion workingDir : String)
    (hok : (Parse w p buildpackVersion workingDir).err = none) :
    ∃ (c1 : List Call) (base : BuildConfiguration),
      loadBuildpackYML w p buildpackVersion workingDir = (c1, base, none) ∧
      (Parse w p buildpackVersion workingDir).config.Targets =
        (if targetsAfterEnv w base ≠ [] then
          (p.targetManager.CleanAndValidate (targetsAfterEnv w base) workingDir).1
        else (p.targetManager.GenerateDefaults workingDir).1) ∧
      ((Parse w p buildpackVersion workingDir).config.Targets ≠ [] ↔
        (if targetsAfterEnv w base ≠ [] then
          (p.targetManager.CleanAndValidate (targetsAfterEnv w base) workingDir).1
        else (p.targetManager.GenerateDefaults workingDir).1) ≠ []) := by
  obtain ⟨c1, base, c2, targets, flags, skip, gomod, h1, _, _, _, _, _⟩ :=
    Parse_ok_inv w p buildpackVersion workingDir hok
  obtain ⟨hts, hnone⟩ := (Parse_targets w p buildpackVersion workingDir c1 base h1).1 hok
  have heq : (Parse w p buildpackVersion workingDir).config.Targets =
      (if targetsAfterEnv w base ≠ [] then
        (p.targetManager.CleanAndValidate (targetsAfterEnv w base) workingDir).1
      else (p.targetManager.GenerateDefaults workingDir).1) := by
    rw [hts]
    by_cases hne : targetsAfterEnv w base ≠ []
    · have hr := resolveTargets_nonempty p (targetsAfterEnv w base) workingDir hne
      rw [if_pos hne]
      exact hr.2.2 (by rw [← hr.2.1]; exact hnone)
    · have hnil : targetsAfterEnv w base = [] := by simpa using hne
      have hr := resolveTargets_empty p workingDir
      rw [hnil] at hnone ⊢
      rw [if_neg (by simp)]
      exact hr.2.2 (by rw [← hr.2.1]; exact hnone)
  exact ⟨c1, base, h1, heq, by rw [heq]⟩

/-- C11, on an example: the targets `a` and `b` of `BP_GO_TARGETS` come back from
`CleanAndValidate` and are the targets of the result. -/
theorem targets_are_the_target_manager_result_witness :
    ∃ (c1 : List Call) (base : BuildConfiguration),
      loadBuildpackYML (sampleWorld [("BP_GO_TARGETS", "a:b")] [])
        (sampleParser BuildConfiguration.zero) "1.2.3" "/workspace" = (c1, base, none) ∧
      (Parse (sampleWorld [("BP_GO_TARGETS", "a:b")] [])
        (sampleParser BuildConfiguration.zero) "1.2.3" "/workspace").config.Targets =
        (if targetsAfterEnv (sampleWorld [("BP_GO_TARGETS", "a:b")] []) base ≠ [] then
          ((sampleParser BuildConfiguration.zero).targetManager.CleanAndValidate
            (targetsAfterEnv (sampleWorld [("BP_GO_TARGETS", "a:b")] []) base)
            "/workspace").1
        else ((sampleParser BuildConfiguration.zero).targetManager.GenerateDefaults
          "/workspace").1) ∧
      ((Parse (sampleWorld [("BP_GO_TARGETS", "a:b")] [])
        (sampleParser BuildConfiguration.zero) "1.2.3" "/workspace").config.Targets ≠ [] ↔
        (if targetsAfterEnv (sampleWorld [("BP_GO_TARGETS", "a:b")] []) base ≠ [] then
          ((sampleParser BuildConfiguration.zero).targetManager.CleanAndValidate
            (targetsAfterEnv (sampleWorld [("BP_GO_TARGETS", "a:b")] []) base)
            "/workspace").1
        else ((sampleParser BuildConfiguration.zero).targetManager.GenerateDefaults
          "/workspace").1) ≠ []) :=
  targets_are_the_target_manager_result (sampleWorld [("BP_GO_TARGETS", "a:b")] [])
    (sampleParser BuildConfiguration.zero) "1.2.3" "/workspace" (by decide)

/-- C13: with no buildpack.yml, none of the five variables set, a successful
`GenerateDefaults` and a `go.mod` probe that does not fail, `Parse` succeeds; its only
collaborator call is `GenerateDefaults(workingDir)`, whose list is the targets; flags
and import path are empty and `GenerateBOM` tells whether `go.mod` exists. -/
theorem defaults_with_nothing_set (w : World) (p : BuildConfigurationParser)
    (buildpackVersion workingDir : String)
    (hyml : w.stat (w.filepathJoin workingDir "buildpack.yml") = StatResult.notExist)
    (htargets : w.lookupEnv "BP_GO_TARGETS" = none)
    (hflags : w.lookupEnv "BP_GO_BUILD_FLAGS" = none)
    (hld : w.lookupEnv "BP_GO_BUILD_LDFLAGS" = none)
    (himport : w.lookupEnv "BP_GO_BUILD_IMPORT_PATH" = none)
    (hbom : w.lookupEnv "BP_DISABLE_MODULE_BOM" = none)
    (hdefaults : (p.targetManager.GenerateDefaults workingDir).2 = none)
    (hgomod : ∀ e : GoError,
      w.stat (w.filepathJoin workingDir "go.mod") ≠ StatResult.failed e) :
    Parse w p buildpackVersion workingDir =
      ⟨[Call.generateDefaults workingDir],
        { Targets := (p.targetManager.GenerateDefaults workingDir).1
          Flags := []
          ImportPath := ""
          GenerateBOM :=
            decide (w.stat (w.filepathJoin workingDir "go.mod") = StatResult.found) },
        none⟩ := by
  have h1 : loadBuildpackYML w p buildpackVersion workingDir =
      ([], BuildConfiguration.zero, none) := by
    unfold loadBuildpackYML
    simp only [hyml]
  have ht : targetsAfterEnv w BuildConfiguration.zero = [] := by
    unfold targetsAfterEnv
    simp only [htargets]
    rfl
  have h2 : resolveTargets p [] workingDir =
      ([Call.generateDefaults workingDir],
        (p.targetManager.GenerateDefaults workingDir).1, none) := by
    unfold resolveTargets
    rcases hg : p.targetManager.GenerateDefaults workingDir with ⟨ts, e⟩
    rw [hg] at hdefaults
    simp only at hdefaults
    subst hdefaults
    simp
  have h3 : parseFlagsFromEnvVars w BuildConfiguration.zero.Flags = ([], none) := by
    unfold parseFlagsFromEnvVars applyBuildFlags applyLdflags
    simp only [hflags, hld]
    rfl
  have h4 : skipBomGeneration w = (false, none) := by
    unfold skipBomGeneration
    simp only [hbom]
  have h5 : validateGoModFile w workingDir =
      (decide (w.stat (w.filepathJoin workingDir "go.mod") = StatResult.found), none) := by
    unfold validateGoModFile
    cases hs : w.stat (w.filepathJoin workingDir "go.mod") with
    | failed err => exact absurd hs (hgomod err)
    | notExist => simp
    | found => simp
  unfold Parse
  simp only [h1, ht, h2, h3, himport, h4, h5]
  rfl

/-- C13, on an example: an empty directory apart from `go.mod`, nothing set. -/
theorem defaults_with_nothing_set_witness :
    Parse (sampleWorld [] ["/workspace/go.mod"]) (sampleParser BuildConfiguration.zero)
        "1.2.3" "/workspace" =
      ⟨[Call.generateDefaults "/workspace"],
        { Targets := ["."], Flags := [], ImportPath := "", GenerateBOM := true }, none⟩ :=
  defaults_with_nothing_set (sampleWorld [] ["/workspace/go.mod"])
    (sampleParser BuildConfiguration.zero) "1.2.3" "/workspace"
    (by decide) (by decide) (by decide) (by decide) (by decide) (by decide) (by decide)
    (fun _ h => StatResult.noConfusion
      ((by decide : (sampleWorld [] ["/workspace/go.mod"]).stat
          ((sampleWorld [] ["/workspace/go.mod"]).filepathJoin "/workspace" "go.mod") =
        StatResult.found).symm.trans h))

/-- C14: in a successful `Parse` the import path is the value of `BP_GO_BUILD_IMPORT_PATH`
when that variable is set (the empty value included), otherwise the import path that the
buildpack.yml parser gave, and the empty string when there is no buildpack.yml. -/
theorem path_of_import_precedence (w : World) (p : BuildConfigurationParser)
    (buildpackVersion workingDir : String)
    (hok : (Parse w p buildpackVersion workingDir).err = none) :
    (Parse w p buildpackVersion workingDir).config.ImportPath =
      match w.lookupEnv "BP_GO_BUILD_IMPORT_PATH" with
      | some val => val
      | none =>
        match w.stat (w.filepathJoin workingDir "buildpack.yml") with
        | StatResult.found =>
          (p.buildpackYMLParser.Parse buildpackVersion workingDir).1.ImportPath
        | _ => "" := by
  obtain ⟨c1, base, c2, targets, flags, skip, gomod, h1, _, _, _, _, hP⟩ :=
    Parse_ok_inv w p buildpackVersion workingDir hok
  have hbase := loadBuildpackYML_base w p buildpackVersion workingDir c1 base h1
  rw [hP]
  cases hv : w.lookupEnv "BP_GO_BUILD_IMPORT_PATH" with
  | some val => rfl
  | none =>
    simp only
    rw [hbase]
    cases w.stat (w.filepathJoin workingDir "buildpack.yml") <;> rfl

/-- C14, on three examples with the import path `from/yml` in buildpack.yml: the variable
set to the empty string, the variable not set, and no buildpack.yml. -/
theorem path_of_import_precedence_witness :
    (Parse (sampleWorld [("BP_GO_BUILD_IMPORT_PATH", "")] ["/workspace/buildpack.yml"])
        (sampleParser ⟨[], [], "from/yml", false⟩) "1.2.3" "/workspace").config.ImportPath =
      "" ∧
    (Parse (sampleWorld [] ["/workspace/buildpack.yml"])
        (sampleParser ⟨[], [], "from/yml", false⟩) "1.2.3" "/workspace").config.ImportPath =
      "from/yml" ∧
    (Parse (sampleWorld [] [])
        (sampleParser ⟨[], [], "from/yml", false⟩) "1.2.3" "/workspace").config.ImportPath =
      "" :=
  ⟨path_of_import_precedence
      (sampleWorld [("BP_GO_BUILD_IMPORT_PATH", "")] ["/workspace/buildpack.yml"])
      (sampleParser ⟨[], [], "from/yml", false⟩) "1.2.3" "/workspace" (by decide),
    path_of_import_precedence (sampleWorld [] ["/workspace/buildpack.yml"])
      (sampleParser ⟨[], [], "from/yml", false⟩) "1.2.3" "/workspace" (by decide),
    path_of_import_precedence (sampleWorld [] [])
      (sampleParser ⟨[], [], "from/yml", false⟩) "1.2.3" "/workspace" (by decide)⟩

/-- C15: when neither `BP_GO_BUILD_FLAGS` nor `BP_GO_BUILD_LDFLAGS` is set,
`parseFlagsFromEnvVars` succeeds and returns the base list as it is. -/
theorem flags_pass_through_when_unset (w : World) (base : List String)
    (hflags : w.lookupEnv "BP_GO_BUILD_FLAGS" = none)
    (hld : w.lookupEnv "BP_GO_BUILD_LDFLAGS" = none) :
    parseFlagsFromEnvVars w base = (base, none) := by
  unfold parseFlagsFromEnvVars applyBuildFlags applyLdflags
  simp only [hflags, hld]

/-- C15, on two examples: a base list of three flags, and the empty base list. -/
theorem flags_pass_through_when_unset_witness :
    parseFlagsFromEnvVars (sampleWorld [("BP_GO_TARGETS", "a")] [])
        ["-ldflags=-s", "-race", "-ldflags=-w"] =
      (["-ldflags=-s", "-race", "-ldflags=-w"], none) ∧
    parseFlagsFromEnvVars (sampleWorld [] []) [] = ([], none) :=
  ⟨flags_pass_through_when_unset (sampleWorld [("BP_GO_TARGETS", "a")] [])
      ["-ldflags=-s", "-race", "-ldflags=-w"] (by decide) (by decide),
    flags_pass_through_when_unset (sampleWorld [] []) [] (by decide) (by decide)⟩

/-- C18, as it is worded, fails for the list passed to `parseFlagsFromEnvVars`: when
`BP_GO_BUILD_FLAGS` is set as well, that list is dropped before the ldflags step, so its
flag `-race` is not in the result at index 0. -/
theorem ldflags_shape_input_list_counterexample :
    parseFlagsFromEnvVars
        (sampleWorld [("BP_GO_BUILD_FLAGS", "-v"), ("BP_GO_BUILD_LDFLAGS", "x")] [])
        ["-race"] = (["-v", "-ldflags=x"], none) ∧
    (sampleWorld [("BP_GO_BUILD_FLAGS", "-v"), ("BP_GO_BUILD_LDFLAGS", "x")] []).shellwordsParse
        (sampleWorld [("BP_GO_BUILD_FLAGS", "-v"), ("BP_GO_BUILD_LDFLAGS", "x")] []).getenv
        (wrapLdflags "x") = (["-ldflags=x"], none) ∧
    HasPrefix "-race" "-ldflags" = false ∧
    ["-race"][0]? = some "-race" ∧
    (parseFlagsFromEnvVars
        (sampleWorld [("BP_GO_BUILD_FLAGS", "-v"), ("BP_GO_BUILD_LDFLAGS", "x")] [])
        ["-race"]).1[0]? ≠ some "-race" := by
  decide

/-- C18 (amended): when `BP_GO_BUILD_LDFLAGS` is set and its wrapped value gives the single
token `t`, `parseFlagsFromEnvVars` succeeds on the flag list left by the `BP_GO_BUILD_FLAGS`
step; the result contains `t`, every flag of the result that begins with `-ldflags` is `t`,
every flag of that list that does not begin with `-ldflags` is in the result at its index,
and, `t` beginning with `-ldflags`, the length is that of the list when some flag of it
began with `-ldflags` and one more otherwise. -/
theorem ldflags_override_shape (w : World) (base flags : List String) (ldFlags t : String)
    (hb : applyBuildFlags w base = (flags, none))
    (hv : w.lookupEnv "BP_GO_BUILD_LDFLAGS" = some ldFlags)
    (ht : w.shellwordsParse w.getenv (wrapLdflags ldFlags) = ([t], none)) :
    (parseFlagsFromEnvVars w base).2 = none ∧
    t ∈ (parseFlagsFromEnvVars w base).1 ∧
    (∀ flag ∈ (parseFlagsFromEnvVars w base).1, HasPrefix flag "-ldflags" = true → flag = t) ∧
    (∀ (i : Nat) (flag : String), flags[i]? = some flag → HasPrefix flag "-ldflags" = false →
      (parseFlagsFromEnvVars w base).1[i]? = some flag) ∧
    (HasPrefix t "-ldflags" = true →
      (parseFlagsFromEnvVars w base).1.length =
        if containsFlag flags "-ldflags" = true then flags.length else flags.length + 1) := by
  have hres : parseFlagsFromEnvVars w base =
      (if containsFlag flags "-ldflags" && HasPrefix t "-ldflags"
        then flags.map (ldflagsOr t) else flags.map (ldflagsOr t) ++ [t], none) := by
    rw [parseFlagsFromEnvVars_of_applyBuildFlags w base flags hb,
      applyLdflags_single w flags ldFlags t hv ht]
  have hmem : ∀ flag ∈ flags.map (ldflagsOr t), HasPrefix flag "-ldflags" = true → flag = t := by
    intro flag hflag hp
    obtain ⟨f, _, rfl⟩ := List.mem_map.mp hflag
    unfold ldflagsOr at hp ⊢
    by_cases hf : HasPrefix f "-ldflags" = true
    · simp [hf]
    · simp only [hf, if_false] at hp
      exact absurd hp hf
  have hidx : ∀ (i : Nat) (flag : String), flags[i]? = some flag →
      HasPrefix flag "-ldflags" = false → (flags.map (ldflagsOr t))[i]? = some flag := by
    intro i flag hi hp
    rw [List.getElem?_map, hi]
    simp [ldflagsOr, hp]
  rw [hres]
  cases hc : containsFlag flags "-ldflags" with
  | false =>
    simp only [Bool.false_and, Bool.false_eq_true, if_false]
    refine ⟨trivial, by simp, ?_, ?_, ?_⟩
    · intro flag hflag hp
      rcases List.mem_append.mp hflag with h | h
      · exact hmem flag h hp
      · simpa using h
    · intro i flag hi hp
      have hlt : i < (flags.map (ldflagsOr t)).length := by
        rw [List.length_map]
        exact (List.getElem?_eq_some_iff.mp hi).1
      rw [List.getElem?_append_left hlt]
      exact hidx i flag hi hp
    · intro _
      simp
  | true =>
    cases hp : HasPrefix t "-ldflags" with
    | false =>
      simp only [Bool.and_false, Bool.false_eq_true, if_false]
      refine ⟨trivial, by simp, ?_, ?_, ?_⟩
      · intro flag hflag hp'
        rcases List.mem_append.mp hflag with h | h
        · exact hmem flag h hp'
        · simpa using h
      · intro i flag hi hp'
        have hlt : i < (flags.map (ldflagsOr t)).length := by
          rw [List.length_map]
          exact (List.getElem?_eq_some_iff.mp hi).1
        rw [List.getElem?_append_left hlt]
        exact hidx i flag hi hp'
      · intro h
        exact absurd h (by simp)
    | true =>
      simp only [Bool.and_self, if_true]
      refine ⟨trivial, ?_, hmem, hidx, ?_⟩
      · unfold containsFlag at hc
        obtain ⟨f, hf, hpf⟩ := List.any_eq_true.mp hc
        exact List.mem_map.mpr ⟨f, hf, by simp [ldflagsOr, hpf]⟩
      · intro _
        simp

/-- C18, on an example: the override replaces the one `-ldflags` flag of a list of three,
the other two flags keep their places and the length stays three. -/
theorem ldflags_override_shape_witness :
    (parseFlagsFromEnvVars (sampleWorld [("BP_GO_BUILD_LDFLAGS", "-w")] [])
        ["-race", "-ldflags=-s", "-v"]).2 = none ∧
    "-ldflags=-w" ∈ (parseFlagsFromEnvVars (sampleWorld [("BP_GO_BUILD_LDFLAGS", "-w")] [])
        ["-race", "-ldflags=-s", "-v"]).1 ∧
    (∀ flag ∈ (parseFlagsFromEnvVars (sampleWorld [("BP_GO_BUILD_LDFLAGS", "-w")] [])
        ["-race", "-ldflags=-s", "-v"]).1,
      HasPrefix flag "-ldflags" = true → flag = "-ldflags=-w") ∧
    (∀ (i : Nat) (flag : String), ["-race", "-ldflags=-s", "-v"][i]? = some flag →
      HasPrefix flag "-ldflags" = false →
      (parseFlagsFromEnvVars (sampleWorld [("BP_GO_BUILD_LDFLAGS", "-w")] [])
        ["-race", "-ldflags=-s", "-v"]).1[i]? = some flag) ∧
    (HasPrefix "-ldflags=-w" "-ldflags" = true →
      (parseFlagsFromEnvVars (sampleWorld [("BP_GO_BUILD_LDFLAGS", "-w")] [])
        ["-race", "-ldflags=-s", "-v"]).1.length =
        if containsFlag ["-race", "-ldflags=-s", "-v"] "-ldflags" = true
          then ["-race", "-ldflags=-s", "-v"].length
          else ["-race", "-ldflags=-s", "-v"].length + 1) :=
  ldflags_override_shape (sampleWorld [("BP_GO_BUILD_LDFLAGS", "-w")] [])
    ["-race", "-ldflags=-s", "-v"] ["-race", "-ldflags=-s", "-v"] "-w" "-ldflags=-w"
    (by decide) (by decide) (by decide)

/-! ## Errors, probes and repeated calls -/

/-- The target stage never calls the buildpack.yml parser. -/
theorem resolveTargets_no_ymlParse (p : BuildConfigurationParser) (targets : List String)
    (d v2 d2 : String) :
    Call.buildpackYMLParse v2 d2 ∉ (resolveTargets p targets d).1 := by
  by_cases hne : targets ≠ []
  · rw [(resolveTargets_nonempty p targets d hne).1]
    simp
  · have hnil : targets = [] := by simpa using hne
    rw [hnil, (resolveTargets_empty p d).1]
    simp

/-- The run of `Parse` when the buildpack.yml stage fails. -/
theorem Parse_of_yml_error (w : World) (p : BuildConfigurationParser) (v d : String)
    (c1 : List Call) (base : BuildConfiguration) (e : GoError)
    (h1 : loadBuildpackYML w p v d = (c1, base, some e)) :
    Parse w p v d = ⟨c1, BuildConfiguration.zero, some e⟩ := by
  unfold Parse
  simp only [h1]

/-- The error of `Parse` is the first error of its five stages, in their order. -/
theorem Parse_err_first (w : World) (p : BuildConfigurationParser) (v d : String) :
    (Parse w p v d).err =
      match loadBuildpackYML w p v d with
      | (_, _, some e) => some e
      | (_, base, none) =>
        match (resolveTargets p (targetsAfterEnv w base) d).2.2 with
        | some e => some e
        | none =>
          match (parseFlagsFromEnvVars w base.Flags).2 with
          | some e => some e
          | none =>
            match (skipBomGeneration w).2 with
            | some e => some e
            | none => (validateGoModFile w d).2 := by
  rcases h1 : loadBuildpackYML w p v d with ⟨c1, base, e1⟩
  rcases h2 : resolveTargets p (targetsAfterEnv w base) d with ⟨c2, targets, e2⟩
  rcases h3 : parseFlagsFromEnvVars w base.Flags with ⟨flags, e3⟩
  rcases h4 : skipBomGeneration w with ⟨skip, e4⟩
  rcases h5 : validateGoModFile w d with ⟨gomod, e5⟩
  cases e1 <;> cases e2 <;> cases e3 <;> cases e4 <;> cases e5 <;>
    simp [Parse, h1, h2, h3, h4, h5]

/-- C17: both probes take "not found" as a plain negative answer and every other error as
fatal. For `buildpack.yml`: not found gives the zero configuration and no call of the
buildpack.yml parser; another error makes `Parse` return it; the buildpack.yml parser is
called exactly when the probe succeeds. For `go.mod`: not found gives `false` with no
error, found gives `true`, and another error is returned, by `Parse` as well once the stages
before the probe have passed. -/
theorem probes_treat_not_found_alike (w : World) (p : BuildConfigurationParser)
    (buildpackVersion workingDir : String) :
    (w.stat (w.filepathJoin workingDir "buildpack.yml") = StatResult.notExist →
      loadBuildpackYML w p buildpackVersion workingDir =
        ([], BuildConfiguration.zero, none)) ∧
    (∀ e : GoError, w.stat (w.filepathJoin workingDir "buildpack.yml") = StatResult.failed e →
      Parse w p buildpackVersion workingDir = ⟨[], BuildConfiguration.zero, some e⟩) ∧
    (Call.buildpackYMLParse buildpackVersion workingDir ∈
        (Parse w p buildpackVersion workingDir).calls ↔
      w.stat (w.filepathJoin workingDir "buildpack.yml") = StatResult.found) ∧
    (w.stat (w.filepathJoin workingDir "go.mod") = StatResult.notExist →
      validateGoModFile w workingDir = (false, none)) ∧
    (w.stat (w.filepathJoin workingDir "go.mod") = StatResult.found →
      validateGoModFile w workingDir = (true, none)) ∧
    (∀ e : GoError, w.stat (w.filepathJoin workingDir "go.mod") = StatResult.failed e →
      validateGoModFile w workingDir = (false, some e) ∧
      ∀ (c1 c2 : List Call) (base : BuildConfiguration) (targets flags : List String)
        (skip : Bool),
        loadBuildpackYML w p buildpackVersion workingDir = (c1, base, none) →
        resolveTargets p (targetsAfterEnv w base) workingDir = (c2, targets, none) →
        parseFlagsFromEnvVars w base.Flags = (flags, none) →
        skipBomGeneration w = (skip, none) →
        (Parse w p buildpackVersion workingDir).err = some e ∧
        (Parse w p buildpackVersion workingDir).config = BuildConfiguration.zero) := by
  refine ⟨?_, ?_, ?_, ?_, ?_, ?_⟩
  · intro hs
    unfold loadBuildpackYML
    simp only [hs]
  · intro e hs
    apply Parse_of_yml_error w p buildpackVersion workingDir [] BuildConfiguration.zero e
    unfold loadBuildpackYML
    simp only [hs]
  · cases hs : w.stat (w.filepathJoin workingDir "buildpack.yml") with
    | failed e =>
      have h1 : loadBuildpackYML w p buildpackVersion workingDir =
          ([], BuildConfiguration.zero, some e) := by
        unfold loadBuildpackYML
        simp only [hs]
      rw [Parse_of_yml_error w p buildpackVersion workingDir [] BuildConfiguration.zero e h1]
      simp
    | notExist =>
      have h1 : loadBuildpackYML w p buildpackVersion workingDir =
          ([], BuildConfiguration.zero, none) := by
        unfold loadBuildpackYML
        simp only [hs]
      rw [Parse_calls w p buildpackVersion workingDir [] BuildConfiguration.zero h1]
      have hno := resolveTargets_no_ymlParse p
        (targetsAfterEnv w BuildConfiguration.zero) workingDir buildpackVersion workingDir
      simp [hno]
    | found =>
      rcases hy : p.buildpackYMLParser.Parse buildpackVersion workingDir with ⟨cfg, e⟩
      cases e with
      | some err =>
        have h1 : loadBuildpackYML w p buildpackVersion workingDir =
            ([Call.buildpackYMLParse buildpackVersion workingDir],
              BuildConfiguration.zero, some err) := by
          unfold loadBuildpackYML
          simp only [hs, hy]
        rw [Parse_of_yml_error w p buildpackVersion workingDir _ _ err h1]
        simp
      | none =>
        have h1 : loadBuildpackYML w p buildpackVersion workingDir =
            ([Call.buildpackYMLParse buildpackVersion workingDir], cfg, none) := by
          unfold loadBuildpackYML
          simp only [hs, hy]
        rw [Parse_calls w p buildpackVersion workingDir _ cfg h1]
        simp
  · intro hs
    unfold validateGoModFile
    simp only [hs]
  · intro hs
    unfold validateGoModFile
    simp only [hs]
  · intro e hs
    have hv : validateGoModFile w workingDir = (false, some e) := by
      unfold validateGoModFile
      simp only [hs]
    refine ⟨hv, ?_⟩
    intro c1 c2 base targets flags skip h1 h2 h3 h4
    have herr : (Parse w p buildpackVersion workingDir).err = some e := by
      rw [Parse_err_after_flags w p buildpackVersion workingDir c1 c2 base targets flags
        h1 h2 h3, h4, hv]
    exact ⟨herr, Parse_err_zero w p buildpackVersion workingDir (by rw [herr]; simp)⟩

/-- C17, on examples: with neither file there is no buildpack.yml call and `go.mod` counts
as absent; with `buildpack.yml` there, its parser is called; a probe of `buildpack.yml`
that fails with "permission denied" makes `Parse` return that error, and so does a failing
probe of `go.mod`. -/
theorem probes_treat_not_found_alike_witness :
    loadBuildpackYML (sampleWorld [] []) (sampleParser BuildConfiguration.zero)
        "1.2.3" "/workspace" = ([], BuildConfiguration.zero, none) ∧
    validateGoModFile (sampleWorld [] []) "/workspace" = (false, none) ∧
    Call.buildpackYMLParse "1.2.3" "/workspace" ∈
      (Parse (sampleWorld [] ["/workspace/buildpack.yml"])
        (sampleParser BuildConfiguration.zero) "1.2.3" "/workspace").calls ∧
    Parse (lockedWorld [] [] ["/workspace/buildpack.yml"])
        (sampleParser BuildConfiguration.zero) "1.2.3" "/workspace" =
      ⟨[], BuildConfiguration.zero, some "permission denied"⟩ ∧
    ((Parse (lockedWorld [] [] ["/workspace/go.mod"])
        (sampleParser BuildConfiguration.zero) "1.2.3" "/workspace").err =
        some "permission denied" ∧
      (Parse (lockedWorld [] [] ["/workspace/go.mod"])
        (sampleParser BuildConfiguration.zero) "1.2.3" "/workspace").config =
        BuildConfiguration.zero) :=
  ⟨(probes_treat_not_found_alike (sampleWorld [] []) (sampleParser BuildConfiguration.zero)
      "1.2.3" "/workspace").1 (by decide),
    (probes_treat_not_found_alike (sampleWorld [] []) (sampleParser BuildConfiguration.zero)
      "1.2.3" "/workspace").2.2.2.1 (by decide),
    (probes_treat_not_found_alike (sampleWorld [] ["/workspace/buildpack.yml"])
      (sampleParser BuildConfiguration.zero) "1.2.3" "/workspace").2.2.1.mpr (by decide),
    (probes_treat_not_found_alike (lockedWorld [] [] ["/workspace/buildpack.yml"])
      (sampleParser BuildConfiguration.zero) "1.2.3" "/workspace").2.1
      "permission denied" (by decide),
    ((probes_treat_not_found_alike (lockedWorld [] [] ["/workspace/go.mod"])
      (sampleParser BuildConfiguration.zero) "1.2.3" "/workspace").2.2.2.2.2
      "permission denied" (by decide)).2 [] [Call.generateDefaults "/workspace"]
      BuildConfiguration.zero ["."] [] false (by decide) (by decide) (by decide)
      (by decide)⟩

/-- When the buildpack.yml stage fails: the probe failed, or the file is there and the
buildpack.yml parser failed. -/
theorem loadBuildpackYML_err_iff (w : World) (p : BuildConfigurationParser) (v d : String) :
    (loadBuildpackYML w p v d).2.2 ≠ none ↔
      (∃ e : GoError, w.stat (w.filepathJoin d "buildpack.yml") = StatResult.failed e) ∨
      (w.stat (w.filepathJoin d "buildpack.yml") = StatResult.found ∧
        (p.buildpackYMLParser.Parse v d).2 ≠ none) := by
  unfold loadBuildpackYML
  cases hs : w.stat (w.filepathJoin d "buildpack.yml") with
  | failed e => simp
  | notExist => simp
  | found =>
    rcases hy : p.buildpackYMLParser.Parse v d with ⟨cfg, e⟩
    cases e <;> simp

/-- The error of the target stage is the error of the `TargetManager` call. -/
theorem resolveTargets_err (p : BuildConfigurationParser) (targets : List String)
    (d : String) :
    (resolveTargets p targets d).2.2 =
      if targets ≠ [] then (p.targetManager.CleanAndValidate targets d).2
      else (p.targetManager.GenerateDefaults d).2 := by
  by_cases hne : targets ≠ []
  · rw [if_pos hne]
    exact (resolveTargets_nonempty p targets d hne).2.1
  · have hnil : targets = [] := by simpa using hne
    rw [if_neg hne, hnil]
    exact (resolveTargets_empty p d).2.1

/-- When the flag stage fails: the value of `BP_GO_BUILD_FLAGS` does not tokenize, or the
wrapped value of `BP_GO_BUILD_LDFLAGS` does not tokenize or gives other than one token. -/
theorem parseFlagsFromEnvVars_err_iff (w : World) (base : List String) :
    (parseFlagsFromEnvVars w base).2 ≠ none ↔
      (∃ buildFlags : String, w.lookupEnv "BP_GO_BUILD_FLAGS" = some buildFlags ∧
        (w.shellwordsParse w.getenv buildFlags).2 ≠ none) ∨
      (∃ ldFlags : String, w.lookupEnv "BP_GO_BUILD_LDFLAGS" = some ldFlags ∧
        ((w.shellwordsParse w.getenv (wrapLdflags ldFlags)).2 ≠ none ∨
          (w.shellwordsParse w.getenv (wrapLdflags ldFlags)).1.length ≠ 1)) := by
  have hld : ∀ flags : List String, ((applyLdflags w flags).2 ≠ none ↔
      ∃ ldFlags : String, w.lookupEnv "BP_GO_BUILD_LDFLAGS" = some ldFlags ∧
        ((w.shellwordsParse w.getenv (wrapLdflags ldFlags)).2 ≠ none ∨
          (w.shellwordsParse w.getenv (wrapLdflags ldFlags)).1.length ≠ 1)) := by
    intro flags
    unfold applyLdflags
    cases hv : w.lookupEnv "BP_GO_BUILD_LDFLAGS" with
    | none => simp
    | some ldFlags =>
      rcases ht : w.shellwordsParse w.getenv (wrapLdflags ldFlags) with ⟨parsed, e⟩
      cases e with
      | some err => simp [ht]
      | none =>
        by_cases hlen : parsed.length = 1
        · simp [ht, hlen]
          split <;> rfl
        · simp [ht, hlen]
  unfold parseFlagsFromEnvVars applyBuildFlags
  cases hf : w.lookupEnv "BP_GO_BUILD_FLAGS" with
  | none =>
    simp only [hld base]
    simp
  | some buildFlags =>
    rcases ht : w.shellwordsParse w.getenv buildFlags with ⟨parsed, e⟩
    cases e with
    | some err => simp [ht]
    | none =>
      simp only [ht, hld parsed]
      simp [ht]

/-- When the `BP_DISABLE_MODULE_BOM` stage fails: the variable is set to a text that
`ParseBool` does not accept. -/
theorem skipBomGeneration_err_iff (w : World) :
    (skipBomGeneration w).2 ≠ none ↔
      ∃ value : String, w.lookupEnv "BP_DISABLE_MODULE_BOM" = some value ∧
        value ∉ boolTexts := by
  unfold skipBomGeneration
  cases hv : w.lookupEnv "BP_DISABLE_MODULE_BOM" with
  | none => simp
  | some value =>
    simp only [Option.some.injEq, exists_eq_left', ne_eq]
    rw [ParseBool_err_none_iff]

/-- When the `go.mod` probe fails. -/
theorem validateGoModFile_err_iff (w : World) (d : String) :
    (validateGoModFile w d).2 ≠ none ↔
      ∃ e : GoError, w.stat (w.filepathJoin d "go.mod") = StatResult.failed e := by
  unfold validateGoModFile
  cases hs : w.stat (w.filepathJoin d "go.mod") <;> simp

/-- C12: `Parse` is all-or-nothing. A run with an error returns the zero configuration, and
a run has an error exactly when one of these happened: the `buildpack.yml` probe failed
with something else than "not found"; the buildpack.yml parser failed; or, that stage
having passed, the `TargetManager` call failed, a flag value did not tokenize or the
ldflags value gave other than one token, `BP_DISABLE_MODULE_BOM` had a text that is not a
boolean, or the `go.mod` probe failed with something else than "not found". -/
theorem parse_all_or_nothing (w : World) (p : BuildConfigurationParser)
    (buildpackVersion workingDir : String) :
    ((Parse w p buildpackVersion workingDir).err ≠ none →
      (Parse w p buildpackVersion workingDir).config = BuildConfiguration.zero) ∧
    ((Parse w p buildpackVersion workingDir).err ≠ none ↔
      (∃ e : GoError,
        w.stat (w.filepathJoin workingDir "buildpack.yml") = StatResult.failed e) ∨
      (w.stat (w.filepathJoin workingDir "buildpack.yml") = StatResult.found ∧
        (p.buildpackYMLParser.Parse buildpackVersion workingDir).2 ≠ none) ∨
      ∃ (c1 : List Call) (base : BuildConfiguration),
        loadBuildpackYML w p buildpackVersion workingDir = (c1, base, none) ∧
        ((if targetsAfterEnv w base ≠ [] then
            (p.targetManager.CleanAndValidate (targetsAfterEnv w base) workingDir).2
          else (p.targetManager.GenerateDefaults workingDir).2) ≠ none ∨
          ((∃ buildFlags : String, w.lookupEnv "BP_GO_BUILD_FLAGS" = some buildFlags ∧
              (w.shellwordsParse w.getenv buildFlags).2 ≠ none) ∨
            (∃ ldFlags : String, w.lookupEnv "BP_GO_BUILD_LDFLAGS" = some ldFlags ∧
              ((w.shellwordsParse w.getenv (wrapLdflags ldFlags)).2 ≠ none ∨
                (w.shellwordsParse w.getenv (wrapLdflags ldFlags)).1.length ≠ 1))) ∨
          (∃ value : String, w.lookupEnv "BP_DISABLE_MODULE_BOM" = some value ∧
            value ∉ boolTexts) ∨
          (∃ e : GoError,
            w.stat (w.filepathJoin workingDir "go.mod") = StatResult.failed e))) := by
  refine ⟨Parse_err_zero w p buildpackVersion workingDir, ?_⟩
  have hl := loadBuildpackYML_err_iff w p buildpackVersion workingDir
  rw [Parse_err_first]
  rcases h1 : loadBuildpackYML w p buildpackVersion workingDir with ⟨c1, base, e1⟩
  rw [h1] at hl
  cases e1 with
  | some e =>
    have hcause := hl.mp (by simp)
    constructor
    · intro _
      rcases hcause with h | h
      · exact Or.inl h
      · exact Or.inr (Or.inl h)
    · intro _
      simp
  | none =>
    have hnot := (not_congr hl).mp (by simp)
    have hstages :
        ((match (resolveTargets p (targetsAfterEnv w base) workingDir).2.2 with
          | some e => some e
          | none =>
            match (parseFlagsFromEnvVars w base.Flags).2 with
            | some e => some e
            | none =>
              match (skipBomGeneration w).2 with
              | some e => some e
              | none => (validateGoModFile w workingDir).2) ≠ none ↔
          (resolveTargets p (targetsAfterEnv w base) workingDir).2.2 ≠ none ∨
          (parseFlagsFromEnvVars w base.Flags).2 ≠ none ∨
          (skipBomGeneration w).2 ≠ none ∨
          (validateGoModFile w workingDir).2 ≠ none) := by
      cases (resolveTargets p (targetsAfterEnv w base) workingDir).2.2 <;>
        cases (parseFlagsFromEnvVars w base.Flags).2 <;>
        cases (skipBomGeneration w).2 <;>
        cases (validateGoModFile w workingDir).2 <;> simp
    simp only []
    rw [hstages, resolveTargets_err, parseFlagsFromEnvVars_err_iff, skipBomGeneration_err_iff,
      validateGoModFile_err_iff]
    constructor
    · intro h
      exact Or.inr (Or.inr ⟨c1, base, rfl, h⟩)
    · intro h
      rcases h with h | h | ⟨c1', base', heq, h⟩
      · exact absurd (Or.inl h) hnot
      · exact absurd (Or.inr h) hnot
      · simp only [Prod.mk.injEq, and_true] at heq
        obtain ⟨_, rfl⟩ := heq
        exact h

/-- C12, on examples: a `go.mod` probe that fails with "permission denied", after
the import path was already read, gives an error and the zero configuration; so does a
`TargetManager` that fails. -/
theorem parse_all_or_nothing_witness :
    ((Parse (lockedWorld [("BP_GO_BUILD_IMPORT_PATH", "x/y")] [] ["/workspace/go.mod"])
        (sampleParser BuildConfiguration.zero) "1.2.3" "/workspace").err ≠ none ∧
      (Parse (lockedWorld [("BP_GO_BUILD_IMPORT_PATH", "x/y")] [] ["/workspace/go.mod"])
        (sampleParser BuildConfiguration.zero) "1.2.3" "/workspace").config =
        BuildConfiguration.zero) ∧
    ((Parse (sampleWorld [("BP_GO_BUILD_IMPORT_PATH", "x/y")] [])
        (failingParser BuildConfiguration.zero) "1.2.3" "/workspace").err ≠ none ∧
      (Parse (sampleWorld [("BP_GO_BUILD_IMPORT_PATH", "x/y")] [])
        (failingParser BuildConfiguration.zero) "1.2.3" "/workspace").config =
        BuildConfiguration.zero) :=
  ⟨⟨(parse_all_or_nothing
        (lockedWorld [("BP_GO_BUILD_IMPORT_PATH", "x/y")] [] ["/workspace/go.mod"])
        (sampleParser BuildConfiguration.zero) "1.2.3" "/workspace").2.mpr
        (Or.inr (Or.inr ⟨[], BuildConfiguration.zero, by decide,
          Or.inr (Or.inr (Or.inr ⟨"permission denied", by decide⟩))⟩)),
      (parse_all_or_nothing
        (lockedWorld [("BP_GO_BUILD_IMPORT_PATH", "x/y")] [] ["/workspace/go.mod"])
        (sampleParser BuildConfiguration.zero) "1.2.3" "/workspace").1 (by decide)⟩,
    ⟨(parse_all_or_nothing (sampleWorld [("BP_GO_BUILD_IMPORT_PATH", "x/y")] [])
        (failingParser BuildConfiguration.zero) "1.2.3" "/workspace").2.mpr
        (Or.inr (Or.inr ⟨[], BuildConfiguration.zero, by decide, Or.inl (by decide)⟩)),
      (parse_all_or_nothing (sampleWorld [("BP_GO_BUILD_IMPORT_PATH", "x/y")] [])
        (failingParser BuildConfiguration.zero) "1.2.3" "/workspace").1 (by decide)⟩⟩

theorem ldflagsOr_idem (parsed0 flag : String) :
    ldflagsOr parsed0 (ldflagsOr parsed0 flag) = ldflagsOr parsed0 flag := by
  unfold ldflagsOr
  by_cases hp : HasPrefix flag "-ldflags" = true
  · simp [hp]
  · simp [hp]

/-- The flag stage gives the same on the slice that an earlier call in the same
surroundings has written to. -/
theorem parseFlagsFromEnvVars_callerFlagsAfter (w : World) (flags : List String) :
    parseFlagsFromEnvVars w (callerFlagsAfter w flags) = parseFlagsFromEnvVars w flags := by
  cases hf : w.lookupEnv "BP_GO_BUILD_FLAGS" with
  | some buildFlags =>
    have hc : callerFlagsAfter w flags = flags := by
      simp only [callerFlagsAfter, hf]
    rw [hc]
  | none =>
    have hb : ∀ l : List String, applyBuildFlags w l = (l, none) := by
      intro l
      unfold applyBuildFlags
      simp only [hf]
    cases hv : w.lookupEnv "BP_GO_BUILD_LDFLAGS" with
    | none =>
      have hc : callerFlagsAfter w flags = flags := by
        simp only [callerFlagsAfter, hf, hv]
      rw [hc]
    | some ldFlags =>
      rcases ht : w.shellwordsParse w.getenv (wrapLdflags ldFlags) with ⟨parsed, e⟩
      cases e with
      | some err =>
        have hc : callerFlagsAfter w flags = flags := by
          simp only [callerFlagsAfter, hf, hv, ht]
        rw [hc]
      | none =>
        by_cases hlen : parsed.length = 1
        · obtain ⟨t, rfl⟩ := List.length_eq_one.mp hlen
          have hc : callerFlagsAfter w flags = flags.map (ldflagsOr t) := by
            simp [callerFlagsAfter, hf, hv, ht, replaceLdflagsLoop_eq_map]
          rw [hc, parseFlagsFromEnvVars_of_applyBuildFlags w _ _ (hb _),
            parseFlagsFromEnvVars_of_applyBuildFlags w _ _ (hb _),
            applyLdflags_single w _ ldFlags t hv ht, applyLdflags_single w _ ldFlags t hv ht,
            containsFlag_map_ldflagsOr, List.map_map]
          have hidem : (ldflagsOr t ∘ ldflagsOr t) = ldflagsOr t := by
            funext flag
            exact ldflagsOr_idem t flag
          rw [hidem]
          cases containsFlag flags "-ldflags" <;> cases HasPrefix t "-ldflags" <;> rfl
        · have hc : callerFlagsAfter w flags = flags := by
            simp [callerFlagsAfter, hf, hv, ht, hlen]
          rw [hc]

/-- With a buildpack.yml parser that hands out what it holds, the run of `Parse` depends on
what is held only through the targets, the import path and the outcome of the flag stage on
the flags; the held `GenerateBOM` is not read. -/
theorem Parse_holdingParser_congr (w : World) (targetManager : TargetManager)
    (held1 held2 : BuildConfiguration) (err : Option GoError) (v d : String)
    (htargets : held1.Targets = held2.Targets)
    (himport : held1.ImportPath = held2.ImportPath)
    (hflags : parseFlagsFromEnvVars w held1.Flags = parseFlagsFromEnvVars w held2.Flags) :
    Parse w (holdingParser targetManager held1 err) v d =
      Parse w (holdingParser targetManager held2 err) v d := by
  have htgt : targetsAfterEnv w held1 = targetsAfterEnv w held2 := by
    unfold targetsAfterEnv
    rw [htargets]
  have hres : ∀ targets : List String,
      resolveTargets (holdingParser targetManager held1 err) targets d =
        resolveTargets (holdingParser targetManager held2 err) targets d :=
    fun _ => rfl
  unfold Parse loadBuildpackYML
  cases w.stat (w.filepathJoin d "buildpack.yml") with
  | failed e => rfl
  | notExist => rfl
  | found =>
    cases err with
    | some e => rfl
    | none =>
      simp only [holdingParser, htgt, hflags, himport]
      rfl

/-- C16: `Parse` is deterministic, and nothing a call leaves behind changes the next call
in the same surroundings. Two calls, one after the other, with the same collaborators,
version and working directory, in the same environment and file system, return the same
run: the same calls, the same four fields and the same error. This holds also for a
buildpack.yml parser that hands out the same slices on every call, although line 161 of
the first call has then written into the flags that the second call is given. -/
theorem parse_twice_same_run (w : World) (targetManager : TargetManager)
    (held : BuildConfiguration) (err : Option GoError)
    (buildpackVersion workingDir : String) :
    (ParseTwice w w targetManager held err buildpackVersion workingDir).2 =
      (ParseTwice w w targetManager held err buildpackVersion workingDir).1 ∧
    (ParseTwice w w targetManager held err buildpackVersion workingDir).2.config.Targets =
      (ParseTwice w w targetManager held err buildpackVersion workingDir).1.config.Targets ∧
    (ParseTwice w w targetManager held err buildpackVersion workingDir).2.config.Flags =
      (ParseTwice w w targetManager held err buildpackVersion workingDir).1.config.Flags ∧
    (ParseTwice w w targetManager held err buildpackVersion workingDir).2.config.ImportPath =
      (ParseTwice w w targetManager held err
        buildpackVersion workingDir).1.config.ImportPath ∧
    (ParseTwice w w targetManager held err buildpackVersion workingDir).2.config.GenerateBOM =
      (ParseTwice w w targetManager held err
        buildpackVersion workingDir).1.config.GenerateBOM ∧
    (ParseTwice w w targetManager held err buildpackVersion workingDir).2.err =
      (ParseTwice w w targetManager held err buildpackVersion workingDir).1.err := by
  have hrun : (ParseTwice w w targetManager held err buildpackVersion workingDir).2 =
      (ParseTwice w w targetManager held err buildpackVersion workingDir).1 := by
    unfold ParseTwice
    simp only
    apply Parse_holdingParser_congr
    · unfold heldAfterParse
      split
      · split
        · rfl
        · split <;> rfl
      · rfl
    · unfold heldAfterParse
      split
      · split
        · rfl
        · split <;> rfl
      · rfl
    · unfold heldAfterParse
      split
      · split
        · rfl
        · split
          · rfl
          · exact parseFlagsFromEnvVars_callerFlagsAfter w held.Flags
      · rfl
  refine ⟨hrun, ?_, ?_, ?_, ?_, ?_⟩ <;> rw [hrun]

/-- What the first call wrote is there for a second call: when `BP_GO_BUILD_LDFLAGS` is set
for the first call and unset for the second, the second call returns the flags that the
first call wrote into the slice held by the buildpack.yml parser, not the flags the parser
held at the start. -/
theorem first_call_write_is_held :
    (ParseTwice (sampleWorld [("BP_GO_BUILD_LDFLAGS", "x")] ["/workspace/buildpack.yml"])
        (sampleWorld [] ["/workspace/buildpack.yml"]) sampleTargetManager
        ⟨[], ["-ldflags=a", "-race"], "", false⟩ none
        "1.2.3" "/workspace").2.config.Flags = ["-ldflags=x", "-race"] ∧
    (Parse (sampleWorld [] ["/workspace/buildpack.yml"])
        (holdingParser sampleTargetManager ⟨[], ["-ldflags=a", "-race"], "", false⟩ none)
        "1.2.3" "/workspace").config.Flags = ["-ldflags=a", "-race"] := by
  decide

/-! ## The module BOM entries -/

theorem licenseIDs_fold (licenses : List EvidenceLicense) (acc : List String) :
    licenses.foldl (fun acc license => acc ++ [license.License.ID]) acc =
      acc ++ licenses.map (fun license => license.License.ID) := by
  induction licenses generalizing acc with
  | nil => simp
  | cons l ls ih => simp [List.foldl_cons, ih]

/-- The licence IDs are those of the evidence, in its order. -/
theorem licenseIDs_eq_map (licenses : List EvidenceLicense) :
    licenseIDs licenses = licenses.map (fun license => license.License.ID) := by
  unfold licenseIDs
  rw [licenseIDs_fold]
  simp

/-- The loop body on a component whose first hash, if any, is recognised. -/
theorem componentEntry_recognised (files : BOMFiles) (c : Component)
    (h : firstHashRecognised files c = true) :
    componentEntry files c = (entryOf files c, none) := by
  unfold firstHashRecognised at h
  unfold componentEntry entryOf
  cases hh : c.Hashes with
  | nil => simp [licenseIDs_eq_map]
  | cons hash0 rest =>
    rw [hh] at h
    rcases ha : files.GetBOMChecksumAlgorithm hash0.Algorithm with ⟨alg, e⟩
    simp only [ha] at h
    cases e with
    | some err => simp at h
    | none => simp [ha, licenseIDs_eq_map]

/-- The loop body on a component whose first hash is not recognised. -/
theorem componentEntry_unrecognised (files : BOMFiles) (c : Component)
    (h : firstHashRecognised files c = false) :
    (componentEntry files c).2 ≠ none := by
  unfold firstHashRecognised at h
  unfold componentEntry
  cases hh : c.Hashes with
  | nil => rw [hh] at h; simp at h
  | cons hash0 rest =>
    rw [hh] at h
    rcases ha : files.GetBOMChecksumAlgorithm hash0.Algorithm with ⟨alg, e⟩
    simp only [ha] at h
    cases e with
    | some err => simp [ha]
    | none => simp at h

/-- The loop on components that are all recognised appends one entry for each, in order. -/
theorem entriesLoop_recognised (files : BOMFiles) (components : List Component)
    (entries : List BOMEntry)
    (h : ∀ c ∈ components, firstHashRecognised files c = true) :
    entriesLoop files components entries =
      (entries ++ components.map (entryOf files), none) := by
  induction components generalizing entries with
  | nil => simp [entriesLoop]
  | cons c cs ih =>
    have hc := componentEntry_recognised files c (h c (List.mem_cons_self c cs))
    have hcs : ∀ c' ∈ cs, firstHashRecognised files c' = true :=
      fun c' hc' => h c' (List.mem_cons_of_mem c hc')
    unfold entriesLoop
    simp only [hc]
    rw [ih (entries ++ [entryOf files c]) hcs]
    simp

/-- The loop on components one of which is not recognised returns no entry and an error. -/
theorem entriesLoop_unrecognised (files : BOMFiles) (components : List Component)
    (entries : List BOMEntry)
    (h : ∃ c ∈ components, firstHashRecognised files c = false) :
    (entriesLoop files components entries).1 = [] ∧
    (entriesLoop files components entries).2 ≠ none := by
  induction components generalizing entries with
  | nil =>
    obtain ⟨c, hc, _⟩ := h
    simp at hc
  | cons c cs ih =>
    unfold entriesLoop
    cases hr : firstHashRecognised files c with
    | false =>
      have hne := componentEntry_unrecognised files c hr
      rcases hce : componentEntry files c with ⟨entry, e⟩
      rw [hce] at hne
      cases e with
      | none => simp at hne
      | some err => simp
    | true =>
      have hc := componentEntry_recognised files c hr
      simp only [hc]
      apply ih
      obtain ⟨c', hc', hbad⟩ := h
      rcases List.mem_cons.mp hc' with heq | hmem
      · subst heq
        rw [hr] at hbad
        simp at hbad
      · exact ⟨c', hmem, hbad⟩

/-- C19, as it is worded, fails: the BOM is decoded and every component has a recognised
first hash or none, yet `Generate` returns no entry, because removing `bom.json` failed. -/
theorem generate_remove_failure_counterexample :
    (∀ c ∈ sampleBOM.Components,
      firstHashRecognised (unremovableFiles sampleBOM) c = true) ∧
    (unremovableFiles sampleBOM).decode
        ((unremovableFiles sampleBOM).filepathJoin "/workspace" "bom.json") =
      (sampleBOM, none) ∧
    sampleBOM.Components.length = 2 ∧
    Generate sampleModuleBOM (unremovableFiles sampleBOM) "/workspace" "./cmd" =
      ([], some "failed to remove bom.json: permission denied") := by
  decide

/-- C19 (amended): for a BOM that `Generate` has decoded, when every component has no
hashes or a first hash with a recognised algorithm, the loop builds one entry for each
component, in order: name, version and PURL copied, the checksum taken from the first hash
only (none without hashes), the licence IDs of the evidence in their order; `Generate`
returns these entries when removing `bom.json` succeeds, and only the error of the removal
when it fails. When some component has a first hash with an algorithm that is not
recognised, `Generate` returns no entry and an error. -/
theorem generate_entries (m : ModuleBOM) (files : BOMFiles) (workingDir target : String)
    (bom : BOM)
    (hexec : m.executable.Execute
      ["app", "-json", "-files", "-licenses", "-main", target, "-output", "bom.json"]
      workingDir = none)
    (hopen : files.osOpen (files.filepathJoin workingDir "bom.json") = none)
    (hdecode : files.decode (files.filepathJoin workingDir "bom.json") = (bom, none)) :
    ((∀ c ∈ bom.Components, firstHashRecognised files c = true) →
      entriesLoop files bom.Components [] = (bom.Components.map (entryOf files), none) ∧
      (files.osRemove (files.filepathJoin workingDir "bom.json") = none →
        Generate m files workingDir target = (bom.Components.map (entryOf files), none)) ∧
      (∀ e : GoError, files.osRemove (files.filepathJoin workingDir "bom.json") = some e →
        Generate m files workingDir target =
          ([], some ("failed to remove bom.json: " ++ e)))) ∧
    ((∃ c ∈ bom.Components, firstHashRecognised files c = false) →
      (Generate m files workingDir target).1 = [] ∧
      (Generate m files workingDir target).2 ≠ none) := by
  constructor
  · intro hall
    have hloop := entriesLoop_recognised files bom.Components [] hall
    rw [List.nil_append] at hloop
    refine ⟨hloop, ?_, ?_⟩
    · intro hrm
      unfold Generate
      simp only [hexec, hopen, hdecode, hloop, hrm]
    · intro e hrm
      unfold Generate
      simp only [hexec, hopen, hdecode, hloop, hrm]
  · intro hbad
    obtain ⟨_, hne⟩ := entriesLoop_unrecognised files bom.Components [] hbad
    rcases hl : entriesLoop files bom.Components [] with ⟨entries, e⟩
    rw [hl] at hne
    cases e with
    | none => simp at hne
    | some err =>
      unfold Generate
      simp [hexec, hopen, hdecode, hl]

/-- C19, on two examples: a BOM of two components gives two entries, the first with the
checksum of its first hash and its two licences; a BOM whose second component has an
unknown first algorithm gives no entry. -/
theorem generate_entries_witness :
    Generate sampleModuleBOM (sampleFiles sampleBOM) "/workspace" "./cmd" =
      ([{ Name := "github.com/a/b",
          Metadata :=
            { Version := "v1.0.0", PURL := "pkg:golang/github.com/a/b@v1.0.0",
              Checksum := { Algorithm := some "SHA-256", Hash := "abc" },
              Licenses := ["MIT", "Apache-2.0"] } },
        { Name := "github.com/c/d",
          Metadata :=
            { Version := "v0.2.0", PURL := "pkg:golang/github.com/c/d@v0.2.0",
              Checksum := BOMChecksum.zero, Licenses := [] } }], none) ∧
    ((Generate sampleModuleBOM (sampleFiles badBOM) "/workspace" "./cmd").1 = [] ∧
      (Generate sampleModuleBOM (sampleFiles badBOM) "/workspace" "./cmd").2 ≠ none) :=
  ⟨((generate_entries sampleModuleBOM (sampleFiles sampleBOM) "/workspace" "./cmd" sampleBOM
      rfl rfl rfl).1 (by decide)).2.1 rfl,
    (generate_entries sampleModuleBOM (sampleFiles badBOM) "/workspace" "./cmd" badBOM
      rfl rfl rfl).2 (by decide)⟩

end GoBuild
